import Mathlib

/-!
# Verification of the Commerce Document & Cash Ledger Consistency Engine

A shallow embedding, in Lean 4, of the consistency-critical parts of the
`octopus` back-office backend (FastAPI + SQLAlchemy, `src/backend/app`):

* `models/product.py` — `Product.calculate_prices` (pricing chain);
* `schemas/product.py` — the pydantic field constraints of `ProductCreate`;
* `services/voucher_service.py` — `VoucherService.create`,
  `VoucherService.convert_quotation_to_invoice`,
  `VoucherService.create_credit_note`;
* `services/cash_register_service.py` — `_is_expired`,
  `get_open_cash_register`, `open_cash`, `close_cash`, `add_movement`,
  `_calculate_summary`, `create_automatic_movement`;
* `routers/vouchers.py` — the open-cash-register gates and the
  credit-note endpoint with its AFIP (fiscal authority) call and its
  compensating delete.

Monetary amounts are `Decimal` in the source and are modelled as `ℚ`;
`round(·, 2)` on `Decimal` is banker's rounding and is modelled by
`round2` (half-to-even at the second decimal).  Database rows are Lean
structures, tables are lists, `scalar_one_or_none` lookups are
`List.find?`, raised `ValueError`s are `Except.error` values of explicit
error enumerations, and each commit point of the credit-note endpoint is
materialised as an observable snapshot of the voucher table.
-/

namespace Octopus

/-! ## Decimal rounding (Python `round(Decimal, 2)`, ROUND_HALF_EVEN) -/

/-- Round a rational to the nearest integer, ties to the even integer
(the default `decimal` context rounding used by Python's `round` on
`Decimal` values). -/
def roundHalfEven (x : ℚ) : ℤ :=
  let f : ℤ := ⌊x⌋
  let frac : ℚ := x - f
  if frac < 1/2 then f
  else if 1/2 < frac then f + 1
  else if f % 2 = 0 then f else f + 1

/-- Models `round(x, 2)` on a `Decimal`: half-even rounding at two decimal
places. -/
def round2 (x : ℚ) : ℚ := (roundHalfEven (x * 100) : ℚ) / 100

/-- Python `int(...)` applied to a `Decimal`: truncation toward zero. -/
def pyInt (x : ℚ) : ℤ := if 0 ≤ x then ⌊x⌋ else -⌊-x⌋

/-! ## `models/product.py` -/

/-- A `products` row; exactly the columns read or written by the
embedded services (`calculate_prices`, the voucher item loops, stock
updates). -/
structure Product where
  id : ℕ
  business_id : ℕ
  code : String
  description : String
  unit : String
  list_price : ℚ
  discount_1 : ℚ
  discount_2 : ℚ
  discount_3 : ℚ
  discount_display : Option String
  extra_cost : ℚ
  net_price : ℚ
  sale_price : ℚ
  iva_rate : ℚ
  current_stock : ℤ
  deriving Repr, DecidableEq

/-- Embeds `Product.calculate_prices` (`models/product.py:82-109`): chained
discounts, extra cost, tax; `net_price` and `sale_price` are each
rounded once, at the end; `discount_display` joins the truncated
positive discounts with `+`.  The source reads every input through a
Python falsy guard: `... or 0` on the price, discounts and extra cost
is the identity on numbers (0 stays 0), but line 93's
`self.iva_rate or 21` replaces a **zero** (falsy) tax rate by 21, which
the `iva_rate` binding below reproduces. -/
def Product.calculate_prices (p : Product) : Product :=
  let iva_rate := if p.iva_rate = 0 then (21 : ℚ) else p.iva_rate
  let net_base := p.list_price * (1 - p.discount_1 / 100) * (1 - p.discount_2 / 100)
      * (1 - p.discount_3 / 100)
  let net_with_extra := net_base * (1 + p.extra_cost / 100)
  let sale := net_with_extra * (1 + iva_rate / 100)
  let discounts := [p.discount_1, p.discount_2, p.discount_3].filter (fun d => 0 < d)
  { p with
    net_price := round2 net_with_extra
    sale_price := round2 sale
    discount_display :=
      if discounts.isEmpty then none
      else some (String.intercalate "+" (discounts.map (fun d => toString (pyInt d)))) }

/-! ## `schemas/product.py` -/

/-- The payload of `ProductCreate` (only the numeric fields that carry
pydantic constraints, plus the pricing inputs). -/
structure ProductCreateData where
  code : String
  description : String
  cost_price : ℚ
  list_price : ℚ
  discount_1 : ℚ
  discount_2 : ℚ
  discount_3 : ℚ
  extra_cost : ℚ
  iva_rate : ℚ
  current_stock : ℤ
  minimum_stock : ℤ
  unit : String
  deriving Repr, DecidableEq

/-- The pydantic field constraints of `ProductCreate`
(`schemas/product.py:24-36`): `cost_price ge=0`, `list_price ge=0`,
`discount_i ge=0 le=100`, `extra_cost ge=0`, `current_stock ge=0`,
`minimum_stock ge=0`.  `iva_rate` carries no bound in the source. -/
def productCreateValid (d : ProductCreateData) : Bool :=
  0 ≤ d.cost_price && 0 ≤ d.list_price
    && (0 ≤ d.discount_1 && d.discount_1 ≤ 100)
    && (0 ≤ d.discount_2 && d.discount_2 ≤ 100)
    && (0 ≤ d.discount_3 && d.discount_3 ≤ 100)
    && 0 ≤ d.extra_cost && 0 ≤ d.current_stock && 0 ≤ d.minimum_stock

/-- Embeds `ProductService.create` (`services/product_service.py:23-34`) as
reached through the API: the pydantic validation of the request body
(rejecting with 422 `InvalidInput`), then a `Product` row built from
the payload with `calculate_prices` applied. -/
def product_service_create (business_id : ℕ) (d : ProductCreateData) : Option Product :=
  if productCreateValid d then
    some (Product.calculate_prices
      { id := 0
        business_id := business_id
        code := d.code
        description := d.description
        unit := d.unit
        list_price := d.list_price
        discount_1 := d.discount_1
        discount_2 := d.discount_2
        discount_3 := d.discount_3
        discount_display := none
        extra_cost := d.extra_cost
        net_price := 0
        sale_price := 0
        iva_rate := d.iva_rate
        current_stock := d.current_stock })
  else none

/-! ## `models/cash_register.py` -/

/-- Embeds `CashRegisterStatus`: the `EXPIRED` state is computed at runtime,
never stored. -/
inductive CashRegisterStatus where
  | OPEN
  | CLOSED
  deriving Repr, DecidableEq

/-- Embeds `CashMovementType`. -/
inductive CashMovementType where
  | SALE
  | PAYMENT_RECEIVED
  | INCOME
  | EXPENSE
  deriving Repr, DecidableEq

/-- Embeds `CashPaymentMethod`. -/
inductive CashPaymentMethod where
  | CASH
  | CARD
  | TRANSFER
  | CHECK
  | OTHER
  deriving Repr, DecidableEq

/-- A `cash_movements` row. -/
structure CashMovement where
  cash_register_id : ℕ
  type : CashMovementType
  payment_method : CashPaymentMethod
  amount : ℚ
  description : String
  voucher_id : Option ℕ
  created_by : ℕ
  deriving Repr, DecidableEq

/-- A `cash_registers` row; timestamps are UTC instants modelled as
integer seconds. -/
structure CashRegister where
  id : ℕ
  business_id : ℕ
  opened_by : ℕ
  closed_by : Option ℕ
  status : CashRegisterStatus
  opening_amount : ℚ
  opened_at : ℤ
  closed_at : Option ℤ
  counted_cash : Option ℚ
  difference : Option ℚ
  difference_reason : Option String
  movements : List CashMovement
  deleted_at : Option ℤ
  deriving Repr, DecidableEq

/-! ## `services/cash_register_service.py` -/

/-- The threshold `EXPIRED_THRESHOLD_HOURS = 24`, in seconds. -/
def EXPIRED_THRESHOLD_SECONDS : ℤ := 24 * 3600

/-- Embeds `_is_expired` (`cash_register_service.py:36-41`): an open register
is expired when it was opened more than 24 hours before `now`. -/
def isExpiredAt (now : ℤ) (r : CashRegister) : Bool :=
  if r.status ≠ CashRegisterStatus.OPEN then false
  else decide (r.opened_at < now - EXPIRED_THRESHOLD_SECONDS)

/-- Embeds `get_open_cash_register` (`cash_register_service.py:81-97`): the
business's register with `status = OPEN` and `deleted_at IS NULL`.
No expiry condition appears in the query. -/
def get_open_cash_register (registers : List CashRegister) (business_id : ℕ) :
    Option CashRegister :=
  registers.find? (fun r =>
    r.business_id == business_id && r.status == CashRegisterStatus.OPEN
      && r.deleted_at == none)

/-- Errors raised by the cash-register service (each constructor is one
`HTTPException` site). -/
inductive CashErr where
  /-- 409 at `open_cash`: an expired register is still open. -/
  | expiredRegisterStillOpen
  /-- 409 at `open_cash`: a register is already open. -/
  | registerAlreadyOpen
  /-- 404 at `close_cash`: no open register to close. -/
  | noOpenRegisterToClose
  /-- 404 at `add_movement`: no open register. -/
  | noOpenRegisterForMovement
  /-- 409 at `add_movement`: the open register is expired. -/
  | openRegisterExpired
  /-- 422 at `close_cash`: nonzero difference without a reason. -/
  | differenceReasonRequired
  deriving Repr, DecidableEq

/-- Python truthiness of an optional string (`not data.difference_reason`):
`None` and `""` are falsy. -/
def strFalsy : Option String → Bool
  | none => true
  | some s => s == ""

/-- Embeds `open_cash` (`cash_register_service.py:115-157`): refuses while a
register is open (with a distinct conflict for the expired case),
otherwise creates an `OPEN` register with the opening amount and no
movements. -/
def open_cash (registers : List CashRegister) (business_id : ℕ)
    (user_id : ℕ) (now : ℤ) (newId : ℕ) (opening_amount : ℚ) :
    Except CashErr CashRegister :=
  match get_open_cash_register registers business_id with
  | some existing =>
      if isExpiredAt now existing then .error .expiredRegisterStillOpen
      else .error .registerAlreadyOpen
  | none =>
      .ok { id := newId
            business_id := business_id
            opened_by := user_id
            closed_by := none
            status := CashRegisterStatus.OPEN
            opening_amount := opening_amount
            opened_at := now
            closed_at := none
            counted_cash := none
            difference := none
            difference_reason := none
            movements := []
            deleted_at := none }

/-- One per-method accumulator of `_calculate_summary`
(`PaymentMethodSummary` in `schemas/cash_register.py`). -/
structure PaymentMethodSummary where
  payment_method : CashPaymentMethod
  total_sales : ℚ
  total_payments_received : ℚ
  total_income : ℚ
  total_expense : ℚ
  net : ℚ
  deriving Repr, DecidableEq

/-- The zero-initialised accumulator for one payment method. -/
def PaymentMethodSummary.init (m : CashPaymentMethod) : PaymentMethodSummary :=
  { payment_method := m, total_sales := 0, total_payments_received := 0
    total_income := 0, total_expense := 0, net := 0 }

/-- The per-movement accumulation step of `_calculate_summary`'s first
loop: add the amount to the bucket selected by the movement type. -/
def PaymentMethodSummary.addMovement (s : PaymentMethodSummary) (mv : CashMovement) :
    PaymentMethodSummary :=
  match mv.type with
  | .SALE => { s with total_sales := s.total_sales + mv.amount }
  | .PAYMENT_RECEIVED =>
      { s with total_payments_received := s.total_payments_received + mv.amount }
  | .INCOME => { s with total_income := s.total_income + mv.amount }
  | .EXPENSE => { s with total_expense := s.total_expense + mv.amount }

/-- The `by_method` dictionary after the first loop of
`_calculate_summary`: fold every movement into the bucket of its
payment method. -/
def accumulateMovements (movements : List CashMovement) :
    CashPaymentMethod → PaymentMethodSummary :=
  movements.foldl
    (fun acc mv => fun m =>
      if m = mv.payment_method then (acc m).addMovement mv else acc m)
    PaymentMethodSummary.init

/-- The second loop of `_calculate_summary`:
`net = sales + payments_received + income - expense`. -/
def PaymentMethodSummary.withNet (s : PaymentMethodSummary) : PaymentMethodSummary :=
  { s with net := s.total_sales + s.total_payments_received + s.total_income
      - s.total_expense }

/-- Iteration order of `for method in CashPaymentMethod`. -/
def allCashMethods : List CashPaymentMethod :=
  [.CASH, .CARD, .TRANSFER, .CHECK, .OTHER]

/-- Embeds `CashSummaryResponse`. -/
structure CashSummary where
  by_method : List PaymentMethodSummary
  total_net : ℚ
  expected_cash : ℚ
  deriving Repr, DecidableEq

/-- Embeds `_calculate_summary` (`cash_register_service.py:290-323`): per-method
totals from the stored movements, `expected_cash = opening_amount +
net(CASH)`, `total_net = Σ net`. -/
def calculate_summary (r : CashRegister) : CashSummary :=
  let by_method := fun m => ((accumulateMovements r.movements) m).withNet
  let cash_net := (by_method CashPaymentMethod.CASH).net
  { by_method := allCashMethods.map by_method
    total_net := (allCashMethods.map (fun m => (by_method m).net)).sum
    expected_cash := r.opening_amount + cash_net }

/-- Embeds `close_cash` (`cash_register_service.py:160-211`): requires an open
register; `difference = counted_cash - expected_cash`; a nonzero
difference without a reason is rejected; otherwise the register is
closed with the audit fields set. -/
def close_cash (registers : List CashRegister) (business_id : ℕ)
    (user_id : ℕ) (now : ℤ) (counted_cash : ℚ) (difference_reason : Option String) :
    Except CashErr CashRegister :=
  match get_open_cash_register registers business_id with
  | none => .error .noOpenRegisterToClose
  | some register =>
      let expected_cash := (calculate_summary register).expected_cash
      let difference := counted_cash - expected_cash
      if difference ≠ 0 && strFalsy difference_reason then
        .error .differenceReasonRequired
      else
        .ok { register with
              status := CashRegisterStatus.CLOSED
              closed_by := some user_id
              closed_at := some now
              counted_cash := some counted_cash
              difference := some difference
              difference_reason := difference_reason }

/-- The body of a manual movement request
(`CashMovementCreateRequest`); its pydantic validator restricts the
type to `INCOME`/`EXPENSE` and the amount to be positive. -/
structure CashMovementCreateRequest where
  type : CashMovementType
  payment_method : CashPaymentMethod
  amount : ℚ
  description : String
  deriving Repr, DecidableEq

/-- Embeds `add_movement` (`cash_register_service.py:214-258`): manual
movements require an open, non-expired register; returns the register
with the movement appended. -/
def add_movement (registers : List CashRegister) (business_id : ℕ)
    (user_id : ℕ) (now : ℤ) (data : CashMovementCreateRequest) :
    Except CashErr (CashRegister × CashMovement) :=
  match get_open_cash_register registers business_id with
  | none => .error .noOpenRegisterForMovement
  | some register =>
      if isExpiredAt now register then .error .openRegisterExpired
      else
        let movement : CashMovement :=
          { cash_register_id := register.id
            type := data.type
            payment_method := data.payment_method
            amount := data.amount
            description := data.description
            voucher_id := none
            created_by := user_id }
        .ok ({ register with movements := register.movements ++ [movement] }, movement)

/-- Embeds `create_automatic_movement` (`cash_register_service.py:326-351`):
builds a `SALE`/`PAYMENT_RECEIVED` movement row for the given register
and leaves the commit to the caller.  No module of the repository
calls it. -/
def create_automatic_movement (register : CashRegister)
    (movement_type : CashMovementType) (payment_method : CashPaymentMethod)
    (amount : ℚ) (description : String) (created_by : ℕ)
    (voucher_id : Option ℕ) : CashMovement :=
  { cash_register_id := register.id
    type := movement_type
    payment_method := payment_method
    amount := amount
    description := description
    voucher_id := voucher_id
    created_by := created_by }

/-! ## `models/voucher.py`, `models/business.py`, `models/client.py` -/

/-- Embeds `VoucherType`. -/
inductive VoucherType where
  | QUOTATION
  | RECEIPT
  | INVOICE_A
  | INVOICE_B
  | INVOICE_C
  | CREDIT_NOTE_A
  | CREDIT_NOTE_B
  | CREDIT_NOTE_C
  | DEBIT_NOTE_A
  | DEBIT_NOTE_B
  | DEBIT_NOTE_C
  deriving Repr, DecidableEq

/-- Embeds `VoucherStatus`. -/
inductive VoucherStatus where
  | DRAFT
  | CONFIRMED
  | CANCELLED
  deriving Repr, DecidableEq

/-- The `number` column of a voucher: either the zero-padded decimal of
a counter value, or the `"PENDING"` placeholder a credit note carries
until the fiscal authority assigns its number. -/
inductive VNumber where
  | pending
  | num (n : ℕ)
  deriving Repr, DecidableEq

/-- A `voucher_items` row (`models/voucher_item.py`): the frozen
snapshot of a product at sale time. -/
structure VoucherItem where
  voucher_id : ℕ
  product_id : ℕ
  code : String
  description : String
  quantity : ℚ
  unit : String
  unit_price : ℚ
  discount_percent : ℚ
  iva_rate : ℚ
  iva_amount : ℚ
  subtotal : ℚ
  total : ℚ
  line_number : ℕ
  deriving Repr, DecidableEq

/-- A `vouchers` row; dates are day ordinals. -/
structure Voucher where
  id : ℕ
  business_id : ℕ
  client_id : ℕ
  created_by : ℕ
  voucher_type : VoucherType
  status : VoucherStatus
  sale_point : String
  number : VNumber
  date : ℕ
  notes : String
  show_prices : String
  subtotal : ℚ
  iva_amount : ℚ
  total : ℚ
  cae : Option String
  cae_expiration : Option ℕ
  related_voucher_id : Option ℕ
  invoiced_voucher_id : Option ℕ
  items : List VoucherItem
  deleted_at : Option ℤ
  deriving Repr, DecidableEq

/-- A `businesses` row: the five per-family counters (stored zero-padded
and parsed back with `int(... or "0")`, hence naturals here) and the
default sale point. -/
structure Business where
  id : ℕ
  sale_point : String
  last_quotation_number : ℕ
  last_receipt_number : ℕ
  last_invoice_a_number : ℕ
  last_invoice_b_number : ℕ
  last_invoice_c_number : ℕ
  deriving Repr, DecidableEq

/-- A `clients` row (only the columns the embedded services read). -/
structure Client where
  id : ℕ
  business_id : ℕ
  tax_condition : String
  deriving Repr, DecidableEq

/-- A `payment_methods` row (`PaymentMethodCatalog`). -/
structure PaymentMethodCatalog where
  id : ℕ
  business_id : ℕ
  name : String
  code : String
  is_active : Bool
  requires_reference : Bool
  deriving Repr, DecidableEq

/-- A `voucher_payments` row. -/
structure VoucherPayment where
  voucher_id : ℕ
  payment_method_id : ℕ
  amount : ℚ
  reference : Option String
  deriving Repr, DecidableEq

/-! ## `schemas/voucher.py`, `schemas/credit_note.py` -/

/-- Embeds `VoucherItemCreate`: the `unit_price` sent by the frontend is part
of the schema but the service recomputes prices from the database. -/
structure VoucherItemCreate where
  product_id : ℕ
  quantity : ℚ
  discount_percent : ℚ
  unit_price : ℚ
  deriving Repr, DecidableEq

/-- Embeds `VoucherPaymentCreate`. -/
structure VoucherPaymentCreate where
  payment_method_id : ℕ
  amount : ℚ
  reference : Option String
  deriving Repr, DecidableEq

/-- Embeds `VoucherCreate`; `payments = []` models the falsy `None`/empty
cases of `if data.payments:`. -/
structure VoucherCreate where
  client_id : ℕ
  voucher_type : VoucherType
  date : ℕ
  notes : String
  show_prices : Bool
  items : List VoucherItemCreate
  payments : List VoucherPaymentCreate
  deriving Repr, DecidableEq

/-- Embeds `CreditNoteItemCreate` (`schemas/credit_note.py:10-16`). -/
structure CreditNoteItemCreate where
  product_id : ℕ
  quantity : ℚ
  unit_price : ℚ
  discount_percent : ℚ
  deriving Repr, DecidableEq

/-- The pydantic constraints of `CreditNoteItemCreate`:
`quantity gt=0`, `unit_price ge=0`, `discount_percent ge=0 le=100`. -/
def creditNoteItemValid (it : CreditNoteItemCreate) : Bool :=
  0 < it.quantity && 0 ≤ it.unit_price
    && (0 ≤ it.discount_percent && it.discount_percent ≤ 100)

/-- Embeds `CreditNoteCreate`. -/
structure CreditNoteCreateRequest where
  original_voucher_id : ℕ
  reason : String
  items : List CreditNoteItemCreate
  deriving Repr, DecidableEq

/-! ## `services/voucher_service.py` -/

/-- The `ValueError` sites of `VoucherService` (one constructor per
distinct raise site reachable in the embedded operations). -/
inductive VErr where
  /-- "Cliente no encontrado" / "Cliente de la cotización no encontrado". -/
  | clientNotFound
  /-- "Negocio no encontrado". -/
  | businessNotFound
  /-- "Producto ... no encontrado". -/
  | productNotFound
  /-- "La suma de pagos ... no coincide con el total". -/
  | paymentSumMismatch
  /-- "Método de pago ... no encontrado". -/
  | paymentMethodNotFound
  /-- "Método de pago ... está inactivo". -/
  | paymentMethodInactive
  /-- "El método ... requiere número de referencia". -/
  | referenceRequired
  /-- "Cotización no encontrada". -/
  | quotationNotFound
  /-- "El comprobante seleccionado no es una cotización". -/
  | notAQuotation
  /-- "Esta cotización ya fue facturada". -/
  | quotationAlreadyInvoiced
  /-- "Factura original no encontrada". -/
  | originalInvoiceNotFound
  /-- "Solo se pueden crear Notas de Crédito de facturas". -/
  | onlyInvoicesCreditable
  /-- "La factura original no tiene CAE". -/
  | originalWithoutCae
  /-- "El producto ... no está en la factura original". -/
  | productNotInOriginal
  /-- "La cantidad a devolver ... no puede ser mayor a la cantidad original". -/
  | quantityExceedsOriginal
  /-- "El total de la NC ... no puede superar el total de la factura original". -/
  | ncTotalExceedsOriginal
  deriving Repr, DecidableEq

/-- The portion of a line request the item loops actually read. -/
structure LineInput where
  product_id : ℕ
  quantity : ℚ
  discount_percent : ℚ
  deriving Repr, DecidableEq

/-- The fields `VoucherService.create` reads from a `VoucherItemCreate`
(the submitted `unit_price` is deliberately ignored). -/
def VoucherItemCreate.toLine (it : VoucherItemCreate) : LineInput :=
  { product_id := it.product_id, quantity := it.quantity
    discount_percent := it.discount_percent }

/-- The fields the conversion loop reads from a quotation's stored
item. -/
def VoucherItem.toLine (it : VoucherItem) : LineInput :=
  { product_id := it.product_id, quantity := it.quantity
    discount_percent := it.discount_percent }

/-- Models `product.current_stock -= int(item_data.quantity)` applied to the
product table. -/
def decrementStock (products : List Product) (product_id : ℕ) (quantity : ℚ) :
    List Product :=
  products.map (fun p =>
    if p.id = product_id then { p with current_stock := p.current_stock - pyInt quantity }
    else p)

/-- The item loop shared by `VoucherService.create`
(`voucher_service.py:86-132`) and
`convert_quotation_to_invoice` (`voucher_service.py:696-729`): for each
line, fetch the product (it must belong to the business), price the
line at the product's current `net_price` with the line's discount, tax
it at the product's current `iva_rate`, accumulate document totals, and
decrement stock unless the document is a quotation. -/
def processItems (business_id : ℕ) (voucher_id : ℕ) (voucher_type : VoucherType)
    (products : List Product) (lines : List LineInput) (line_number : ℕ) :
    Except VErr (List Product × List VoucherItem × ℚ × ℚ × ℚ) :=
  match lines with
  | [] => .ok (products, [], 0, 0, 0)
  | line :: rest =>
      match products.find? (fun p => p.id == line.product_id) with
      | none => .error .productNotFound
      | some product =>
          if product.business_id ≠ business_id then .error .productNotFound
          else
            let unit_price := product.net_price
            let discount_factor := 1 - line.discount_percent / 100
            let subtotal_line := unit_price * line.quantity * discount_factor
            let iva_line := subtotal_line * (product.iva_rate / 100)
            let total_line := subtotal_line + iva_line
            let voucher_item : VoucherItem :=
              { voucher_id := voucher_id
                product_id := product.id
                code := product.code
                description := product.description
                quantity := line.quantity
                unit := product.unit
                unit_price := unit_price
                discount_percent := line.discount_percent
                iva_rate := product.iva_rate
                iva_amount := iva_line
                subtotal := subtotal_line
                total := total_line
                line_number := line_number + 1 }
            let products' :=
              if voucher_type ≠ VoucherType.QUOTATION then
                decrementStock products line.product_id line.quantity
              else products
            match processItems business_id voucher_id voucher_type products' rest
                (line_number + 1) with
            | .error e => .error e
            | .ok (ps, its, s, v, t) =>
                .ok (ps, voucher_item :: its, subtotal_line + s, iva_line + v,
                  total_line + t)

/-- The payment block shared by `VoucherService.create`
(`voucher_service.py:148-182`) and `convert_quotation_to_invoice`
(`voucher_service.py:745-770`): the amounts must sum to the document
total within 0.01, each method must exist for the business, be active,
and carry a reference when it requires one. -/
def validatePaymentEntries (methods : List PaymentMethodCatalog) (business_id : ℕ)
    (voucher_id : ℕ) (payments : List VoucherPaymentCreate) :
    Except VErr (List VoucherPayment) :=
  match payments with
  | [] => .ok []
  | p :: rest =>
      match methods.find? (fun m => m.id == p.payment_method_id) with
      | none => .error .paymentMethodNotFound
      | some payment_method =>
          if payment_method.business_id ≠ business_id then .error .paymentMethodNotFound
          else if ¬ payment_method.is_active then .error .paymentMethodInactive
          else if payment_method.requires_reference && strFalsy p.reference then
            .error .referenceRequired
          else
            match validatePaymentEntries methods business_id voucher_id rest with
            | .error e => .error e
            | .ok rows =>
                .ok ({ voucher_id := voucher_id
                       payment_method_id := p.payment_method_id
                       amount := p.amount
                       reference := p.reference } :: rows)

/-- The payment block entry: sum check, then per-entry validation. -/
def processPayments (methods : List PaymentMethodCatalog) (business_id : ℕ)
    (voucher_id : ℕ) (total_final : ℚ) (payments : List VoucherPaymentCreate) :
    Except VErr (List VoucherPayment) :=
  let total_payments := (payments.map (fun p => p.amount)).sum
  if 1/100 < |total_payments - total_final| then .error .paymentSumMismatch
  else validatePaymentEntries methods business_id voucher_id payments

/-- The numbering block of `VoucherService.create`
(`voucher_service.py:41-64`): the five counted families advance their
counter; every other type gets number 1 and leaves every counter
untouched. -/
def reserveNumber (business : Business) : VoucherType → ℕ × Business
  | .QUOTATION =>
      (business.last_quotation_number + 1,
        { business with last_quotation_number := business.last_quotation_number + 1 })
  | .RECEIPT =>
      (business.last_receipt_number + 1,
        { business with last_receipt_number := business.last_receipt_number + 1 })
  | .INVOICE_A =>
      (business.last_invoice_a_number + 1,
        { business with last_invoice_a_number := business.last_invoice_a_number + 1 })
  | .INVOICE_B =>
      (business.last_invoice_b_number + 1,
        { business with last_invoice_b_number := business.last_invoice_b_number + 1 })
  | .INVOICE_C =>
      (business.last_invoice_c_number + 1,
        { business with last_invoice_c_number := business.last_invoice_c_number + 1 })
  | _ => (1, business)

/-- The committed effect of a successful `VoucherService.create`. -/
structure CreateResult where
  voucher : Voucher
  business : Business
  products : List Product
  payments : List VoucherPayment
  deriving Repr, DecidableEq

/-- Embeds `VoucherService.create` (`voucher_service.py:27-189`): client and
business lookups, numbering, the item loop, document totals, status
`CONFIRMED`, and the optional payment block.  The whole body is one
transaction: an error at any point commits nothing. -/
def VoucherService.create (clients : List Client) (businesses : List Business)
    (products : List Product) (methods : List PaymentMethodCatalog)
    (business_id : ℕ) (data : VoucherCreate) (user_id : ℕ) (newVoucherId : ℕ) :
    Except VErr CreateResult :=
  match clients.find? (fun c => c.id == data.client_id) with
  | none => .error .clientNotFound
  | some client =>
      if client.business_id ≠ business_id then .error .clientNotFound
      else
        match businesses.find? (fun b => b.id == business_id) with
        | none => .error .businessNotFound
        | some business =>
            let reserved := reserveNumber business data.voucher_type
            match processItems business_id newVoucherId data.voucher_type products
                (data.items.map VoucherItemCreate.toLine) 0 with
            | .error e => .error e
            | .ok (products', items_db, total_subtotal, total_iva, total_final) =>
                let voucher : Voucher :=
                  { id := newVoucherId
                    business_id := business_id
                    client_id := data.client_id
                    created_by := user_id
                    voucher_type := data.voucher_type
                    status := VoucherStatus.CONFIRMED
                    sale_point := business.sale_point
                    number := VNumber.num reserved.1
                    date := data.date
                    notes := data.notes
                    show_prices := if data.show_prices then "S" else "N"
                    subtotal := total_subtotal
                    iva_amount := total_iva
                    total := total_final
                    cae := none
                    cae_expiration := none
                    related_voucher_id := none
                    invoiced_voucher_id := none
                    items := items_db
                    deleted_at := none }
                if data.payments.isEmpty then
                  .ok { voucher := voucher, business := reserved.2
                        products := products', payments := [] }
                else
                  match processPayments methods business_id newVoucherId total_final
                      data.payments with
                  | .error e => .error e
                  | .ok rows =>
                      .ok { voucher := voucher, business := reserved.2
                            products := products', payments := rows }

/-- The committed effect of a successful
`convert_quotation_to_invoice`. -/
structure ConvertResult where
  invoice : Voucher
  quotation : Voucher
  business : Business
  products : List Product
  payments : List VoucherPayment
  deriving Repr, DecidableEq

/-- Embeds `VoucherService.convert_quotation_to_invoice`
(`voucher_service.py:596-778`): looks up the (non-deleted) quotation,
requires it to be of type `QUOTATION` and not yet invoiced, selects
invoice A for `"RI"` clients and B otherwise, reserves the invoice
number, rebuilds the lines at current product prices (decrementing
stock), optionally allocates payments, and marks the quotation with
`invoiced_voucher_id = invoice.id`.  One transaction. -/
def VoucherService.convert_quotation_to_invoice (vouchers : List Voucher)
    (clients : List Client) (businesses : List Business) (products : List Product)
    (methods : List PaymentMethodCatalog) (business_id : ℕ) (quotation_id : ℕ)
    (payments : List VoucherPaymentCreate) (user_id : ℕ) (today : ℕ)
    (newInvoiceId : ℕ) : Except VErr ConvertResult :=
  match vouchers.find? (fun v =>
      v.id == quotation_id && v.business_id == business_id && v.deleted_at == none) with
  | none => .error .quotationNotFound
  | some quotation =>
      if quotation.voucher_type ≠ VoucherType.QUOTATION then .error .notAQuotation
      else if quotation.invoiced_voucher_id ≠ none then .error .quotationAlreadyInvoiced
      else
        match clients.find? (fun c => c.id == quotation.client_id) with
        | none => .error .clientNotFound
        | some client =>
            let invoice_type :=
              if client.tax_condition == "RI" then VoucherType.INVOICE_A
              else VoucherType.INVOICE_B
            match businesses.find? (fun b => b.id == business_id) with
            | none => .error .businessNotFound
            | some business =>
                let reserved :=
                  if invoice_type = VoucherType.INVOICE_A then
                    (business.last_invoice_a_number + 1,
                      { business with
                        last_invoice_a_number := business.last_invoice_a_number + 1 })
                  else
                    (business.last_invoice_b_number + 1,
                      { business with
                        last_invoice_b_number := business.last_invoice_b_number + 1 })
                match processItems business_id newInvoiceId invoice_type products
                    (quotation.items.map VoucherItem.toLine) 0 with
                | .error e => .error e
                | .ok (products', items_db, total_subtotal, total_iva, total_final) =>
                    let invoice : Voucher :=
                      { id := newInvoiceId
                        business_id := business_id
                        client_id := quotation.client_id
                        created_by := user_id
                        voucher_type := invoice_type
                        status := VoucherStatus.CONFIRMED
                        sale_point := business.sale_point
                        number := VNumber.num reserved.1
                        date := today
                        notes := "Facturado desde Cotización"
                        show_prices := "S"
                        subtotal := total_subtotal
                        iva_amount := total_iva
                        total := total_final
                        cae := none
                        cae_expiration := none
                        related_voucher_id := none
                        invoiced_voucher_id := none
                        items := items_db
                        deleted_at := none }
                    let finish := fun (rows : List VoucherPayment) =>
                      ConvertResult.mk invoice
                        { quotation with invoiced_voucher_id := some newInvoiceId }
                        reserved.2 products' rows
                    if payments.isEmpty then .ok (finish [])
                    else
                      match processPayments methods business_id newInvoiceId
                          total_final payments with
                      | .error e => .error e
                      | .ok rows => .ok (finish rows)

/-- The item loop of `create_credit_note` (`voucher_service.py:875-924`):
each returned product must appear on the original invoice with at least
the requested quantity; the line is priced from the request's
`unit_price` (not the product's), taxed at the hard-coded `0.21`, and
stored with positive `subtotal`/`iva_amount`/`total`, while the
accumulated document subtotal and tax are decremented. -/
def creditNoteItems (original : Voucher) (products : List Product)
    (voucher_id : ℕ) (items_data : List CreditNoteItemCreate) (line_number : ℕ) :
    Except VErr (List VoucherItem × ℚ × ℚ) :=
  match items_data with
  | [] => .ok ([], 0, 0)
  | item_data :: rest =>
      match original.items.find? (fun i => i.product_id == item_data.product_id) with
      | none => .error .productNotInOriginal
      | some original_item =>
          if original_item.quantity < item_data.quantity then
            .error .quantityExceedsOriginal
          else
            match products.find? (fun p => p.id == item_data.product_id) with
            | none => .error .productNotFound
            | some product =>
                let quantity := item_data.quantity
                let unit_price := item_data.unit_price
                let discount := item_data.discount_percent
                let item_subtotal := quantity * unit_price * (1 - discount / 100)
                let item_iva := item_subtotal * (21 / 100)
                let nc_item : VoucherItem :=
                  { voucher_id := voucher_id
                    product_id := product.id
                    code := product.code
                    description := product.description
                    quantity := quantity
                    unit := if product.unit == "" then "unidad" else product.unit
                    unit_price := unit_price
                    discount_percent := discount
                    iva_rate := 21
                    iva_amount := item_iva
                    subtotal := item_subtotal
                    total := item_subtotal + item_iva
                    line_number := line_number }
                match creditNoteItems original products voucher_id rest
                    (line_number + 1) with
                | .error e => .error e
                | .ok (items, s, v) =>
                    .ok (nc_item :: items, -item_subtotal + s, -item_iva + v)

/-- Embeds `VoucherService.create_credit_note` (`voucher_service.py:780-947`):
requires the original to be a fiscal invoice carrying a CAE, builds the
credit note with the temporary `PENDING` number and negated document
totals, rejects a credit note whose absolute total exceeds the original
invoice's total, and commits.  The fiscal authorization is NOT
requested here: the commit at the end of this function persists the
credit note with `cae = none`. -/
def VoucherService.create_credit_note (vouchers : List Voucher)
    (businesses : List Business) (products : List Product) (business_id : ℕ)
    (original_voucher_id : ℕ) (reason : String)
    (items_data : List CreditNoteItemCreate) (user_id : ℕ) (today : ℕ)
    (newId : ℕ) : Except VErr Voucher :=
  match vouchers.find? (fun v =>
      v.id == original_voucher_id && v.business_id == business_id) with
  | none => .error .originalInvoiceNotFound
  | some original_voucher =>
      if original_voucher.voucher_type ∉
          [VoucherType.INVOICE_A, VoucherType.INVOICE_B, VoucherType.INVOICE_C] then
        .error .onlyInvoicesCreditable
      else if original_voucher.cae = none then .error .originalWithoutCae
      else
        match businesses.find? (fun b => b.id == business_id) with
        | none => .error .businessNotFound
        | some business =>
            let nc_type :=
              match original_voucher.voucher_type with
              | .INVOICE_A => VoucherType.CREDIT_NOTE_A
              | .INVOICE_B => VoucherType.CREDIT_NOTE_B
              | _ => VoucherType.CREDIT_NOTE_C
            match creditNoteItems original_voucher products newId items_data 1 with
            | .error e => .error e
            | .ok (items, subtotal, iva_amount) =>
                let credit_note : Voucher :=
                  { id := newId
                    business_id := business_id
                    client_id := original_voucher.client_id
                    created_by := user_id
                    voucher_type := nc_type
                    status := VoucherStatus.CONFIRMED
                    sale_point := business.sale_point
                    number := VNumber.pending
                    date := today
                    notes := reason
                    show_prices := "S"
                    subtotal := subtotal
                    iva_amount := iva_amount
                    total := subtotal + iva_amount
                    cae := none
                    cae_expiration := none
                    related_voucher_id := some original_voucher.id
                    invoiced_voucher_id := none
                    items := items
                    deleted_at := none }
                if original_voucher.total < |credit_note.total| then
                  .error .ncTotalExceedsOriginal
                else .ok credit_note

/-! ## `routers/vouchers.py` -/

/-- Errors returned by the voucher endpoints. -/
inductive RouterErr where
  /-- 400: "No hay una caja abierta." (the open-register gate). -/
  | noOpenRegister
  /-- 400: a service `ValueError`. -/
  | service (e : VErr)
  /-- 400: "Error al emitir NC en AFIP". -/
  | afipEmission
  deriving Repr, DecidableEq

/-- The answer of `AfipSdkService.emit_credit_note` on success. -/
structure AfipAuth where
  cae : String
  cae_expiration : ℕ
  voucherNumber : ℕ
  deriving Repr, DecidableEq

/-- The gate of `POST /vouchers` (`routers/vouchers.py:76-83`): invoice
types require an open register; `get_open_cash_register` ignores
expiry. -/
def router_create_voucher (registers : List CashRegister) (clients : List Client)
    (businesses : List Business) (products : List Product)
    (methods : List PaymentMethodCatalog) (business_id : ℕ) (data : VoucherCreate)
    (user_id : ℕ) (newVoucherId : ℕ) : Except RouterErr CreateResult :=
  if (data.voucher_type ∈
        [VoucherType.INVOICE_A, VoucherType.INVOICE_B, VoucherType.INVOICE_C])
      && (get_open_cash_register registers business_id).isNone then
    .error .noOpenRegister
  else
    match VoucherService.create clients businesses products methods business_id data
        user_id newVoucherId with
    | .error e => .error (.service e)
    | .ok r => .ok r

/-- Embeds the convert-to-invoice endpoint
(`routers/vouchers.py:200-247`): the only register condition is that
`get_open_cash_register` finds an `OPEN` row; expiry is never
consulted. -/
def router_convert_quotation (registers : List CashRegister)
    (vouchers : List Voucher) (clients : List Client) (businesses : List Business)
    (products : List Product) (methods : List PaymentMethodCatalog)
    (business_id : ℕ) (quotation_id : ℕ) (payments : List VoucherPaymentCreate)
    (user_id : ℕ) (today : ℕ) (newInvoiceId : ℕ) : Except RouterErr ConvertResult :=
  match get_open_cash_register registers business_id with
  | none => .error .noOpenRegister
  | some _ =>
      match VoucherService.convert_quotation_to_invoice vouchers clients businesses
          products methods business_id quotation_id payments user_id today
          newInvoiceId with
      | .error e => .error (.service e)
      | .ok r => .ok r

/-- Embeds the credit-note endpoint (`routers/vouchers.py:250-360`).
The first component lists the voucher table as seen after each commit
the endpoint performs, in order: the service commits the credit note
(without CAE) before the AFIP call; on AFIP failure the endpoint
deletes the credit note and commits again; on success it writes the CAE
and fiscal number and commits again. -/
def router_create_credit_note (registers : List CashRegister)
    (vouchers : List Voucher) (clients : List Client) (businesses : List Business)
    (products : List Product) (business_id : ℕ) (data : CreditNoteCreateRequest)
    (user_id : ℕ) (today : ℕ) (newId : ℕ) (afip_result : Option AfipAuth) :
    List (List Voucher) × Except RouterErr Voucher :=
  match get_open_cash_register registers business_id with
  | none => ([], .error .noOpenRegister)
  | some _ =>
      match VoucherService.create_credit_note vouchers businesses products
          business_id data.original_voucher_id data.reason data.items user_id
          today newId with
      | .error e => ([], .error (.service e))
      | .ok credit_note =>
          let committed := vouchers ++ [credit_note]
          match businesses.find? (fun b => b.id == business_id) with
          | none => ([committed], .error (.service .businessNotFound))
          | some _business =>
              match clients.find? (fun c => c.id == credit_note.client_id) with
              | none => ([committed], .error (.service .clientNotFound))
              | some _client =>
                  match vouchers.find? (fun v =>
                      v.id == data.original_voucher_id) with
                  | none => ([committed], .error (.service .originalInvoiceNotFound))
                  | some _original =>
                      match afip_result with
                      | none => ([committed, vouchers], .error .afipEmission)
                      | some auth =>
                          let credit_note' :=
                            { credit_note with
                              cae := some auth.cae
                              cae_expiration := some auth.cae_expiration
                              number := VNumber.num auth.voucherNumber }
                          ([committed, vouchers ++ [credit_note']], .ok credit_note')

/-! ## Helper lemmas -/

theorem roundHalfEven_intCast (n : ℤ) : roundHalfEven (n : ℚ) = n := by
  unfold roundHalfEven
  norm_num

/-- The rounding `round2` is the identity on amounts that are already exact
hundredths. -/
theorem round2_hundredth (n : ℤ) : round2 ((n : ℚ) / 100) = (n : ℚ) / 100 := by
  unfold round2
  rw [div_mul_cancel₀ _ (by norm_num : (100 : ℚ) ≠ 0), roundHalfEven_intCast]

theorem productCreateValid_iff (d : ProductCreateData) :
    productCreateValid d = true ↔
      0 ≤ d.cost_price ∧ 0 ≤ d.list_price
        ∧ (0 ≤ d.discount_1 ∧ d.discount_1 ≤ 100)
        ∧ (0 ≤ d.discount_2 ∧ d.discount_2 ≤ 100)
        ∧ (0 ≤ d.discount_3 ∧ d.discount_3 ≤ 100)
        ∧ 0 ≤ d.extra_cost ∧ 0 ≤ d.current_stock ∧ 0 ≤ d.minimum_stock := by
  simp [productCreateValid, and_assoc]

/-- The movement sum underlying the summary: total of the amounts of
the movements of one type and one payment method. -/
def movementSum (movements : List CashMovement) (ty : CashMovementType)
    (m : CashPaymentMethod) : ℚ :=
  ((movements.filter (fun mv => mv.type == ty && mv.payment_method == m)).map
    (fun mv => mv.amount)).sum

theorem accumulate_total_sales (movements : List CashMovement)
    (f : CashPaymentMethod → PaymentMethodSummary) (m : CashPaymentMethod) :
    ((movements.foldl
        (fun acc mv => fun m' =>
          if m' = mv.payment_method then (acc m').addMovement mv else acc m')
        f) m).total_sales
      = (f m).total_sales + movementSum movements .SALE m := by
  induction movements generalizing f with
  | nil => simp [movementSum]
  | cons mv rest ih =>
      rw [List.foldl_cons, ih]
      by_cases hm : m = mv.payment_method
      · subst hm
        rcases hty : mv.type <;>
          simp_all [movementSum, PaymentMethodSummary.addMovement,
            List.filter_cons] <;> ring
      · have hm' : mv.payment_method ≠ m := fun h => hm h.symm
        rcases hty : mv.type <;>
          simp_all [movementSum, PaymentMethodSummary.addMovement, List.filter_cons]

theorem accumulate_total_payments_received (movements : List CashMovement)
    (f : CashPaymentMethod → PaymentMethodSummary) (m : CashPaymentMethod) :
    ((movements.foldl
        (fun acc mv => fun m' =>
          if m' = mv.payment_method then (acc m').addMovement mv else acc m')
        f) m).total_payments_received
      = (f m).total_payments_received + movementSum movements .PAYMENT_RECEIVED m := by
  induction movements generalizing f with
  | nil => simp [movementSum]
  | cons mv rest ih =>
      rw [List.foldl_cons, ih]
      by_cases hm : m = mv.payment_method
      · subst hm
        rcases hty : mv.type <;>
          simp_all [movementSum, PaymentMethodSummary.addMovement,
            List.filter_cons] <;> ring
      · have hm' : mv.payment_method ≠ m := fun h => hm h.symm
        rcases hty : mv.type <;>
          simp_all [movementSum, PaymentMethodSummary.addMovement, List.filter_cons]

theorem accumulate_total_income (movements : List CashMovement)
    (f : CashPaymentMethod → PaymentMethodSummary) (m : CashPaymentMethod) :
    ((movements.foldl
        (fun acc mv => fun m' =>
          if m' = mv.payment_method then (acc m').addMovement mv else acc m')
        f) m).total_income
      = (f m).total_income + movementSum movements .INCOME m := by
  induction movements generalizing f with
  | nil => simp [movementSum]
  | cons mv rest ih =>
      rw [List.foldl_cons, ih]
      by_cases hm : m = mv.payment_method
      · subst hm
        rcases hty : mv.type <;>
          simp_all [movementSum, PaymentMethodSummary.addMovement,
            List.filter_cons] <;> ring
      · have hm' : mv.payment_method ≠ m := fun h => hm h.symm
        rcases hty : mv.type <;>
          simp_all [movementSum, PaymentMethodSummary.addMovement, List.filter_cons]

theorem accumulate_total_expense (movements : List CashMovement)
    (f : CashPaymentMethod → PaymentMethodSummary) (m : CashPaymentMethod) :
    ((movements.foldl
        (fun acc mv => fun m' =>
          if m' = mv.payment_method then (acc m').addMovement mv else acc m')
        f) m).total_expense
      = (f m).total_expense + movementSum movements .EXPENSE m := by
  induction movements generalizing f with
  | nil => simp [movementSum]
  | cons mv rest ih =>
      rw [List.foldl_cons, ih]
      by_cases hm : m = mv.payment_method
      · subst hm
        rcases hty : mv.type <;>
          simp_all [movementSum, PaymentMethodSummary.addMovement,
            List.filter_cons] <;> ring
      · have hm' : mv.payment_method ≠ m := fun h => hm h.symm
        rcases hty : mv.type <;>
          simp_all [movementSum, PaymentMethodSummary.addMovement, List.filter_cons]

/-- The summary's expected cash is the opening amount plus the net of
the `CASH` bucket, with `net = sales + collections + income − expense`
over the stored movements. -/
theorem calculate_summary_expected_cash (r : CashRegister) :
    (calculate_summary r).expected_cash
      = r.opening_amount
        + (movementSum r.movements .SALE .CASH
            + movementSum r.movements .PAYMENT_RECEIVED .CASH
            + movementSum r.movements .INCOME .CASH
            - movementSum r.movements .EXPENSE .CASH) := by
  show r.opening_amount + (((accumulateMovements r.movements) .CASH).withNet).net = _
  unfold accumulateMovements
  rw [PaymentMethodSummary.withNet]
  rw [accumulate_total_sales, accumulate_total_payments_received,
    accumulate_total_income, accumulate_total_expense]
  simp [PaymentMethodSummary.init]

/-! ## Claim theorems -/

/-- A pricing input satisfying every bound the claim quantifies over. -/
def pricingExample : Product :=
  { id := 1, business_id := 1, code := "A1", description := "demo", unit := "unidad"
    list_price := 1000, discount_1 := 10, discount_2 := 5, discount_3 := 0
    discount_display := none, extra_cost := 0, net_price := 0, sale_price := 0
    iva_rate := 21, current_stock := 0 }

/-- A tax-exempt pricing input: list 100, no discounts, tax rate 0 —
every component non-negative, so the claim quantifies over it. -/
def zeroTaxExample : Product :=
  { id := 2, business_id := 1, code := "A2", description := "exento"
    unit := "unidad", list_price := 100, discount_1 := 0, discount_2 := 0
    discount_3 := 0, discount_display := none, extra_cost := 0, net_price := 0
    sale_price := 0, iva_rate := 0, current_stock := 0 }

/-- **C7 counterexample.** At tax rate 0 — a non-negative input, left
unbounded by the schema and listed as legal in the model's own column
comment — the source's falsy guard `self.iva_rate or 21`
(`models/product.py:93`) silently replaces the rate by 21, so the
program prices the sale at 121.00 where the claim's formula
`net · (1 + tax_rate/100)` demands 100.00: the claimed sale-price
formula is false of the program. -/
theorem zero_tax_rate_priced_at_21 :
    (zeroTaxExample.calculate_prices).sale_price = 121
      ∧ round2 (zeroTaxExample.list_price
          * (1 - zeroTaxExample.discount_1 / 100)
          * (1 - zeroTaxExample.discount_2 / 100)
          * (1 - zeroTaxExample.discount_3 / 100)
          * (1 + zeroTaxExample.extra_cost / 100)
          * (1 + zeroTaxExample.iva_rate / 100)) = 100
      ∧ (121 : ℚ) ≠ 100 := by
  refine ⟨?_, ?_, by norm_num⟩
  · show round2 (100 * (1 - 0 / 100) * (1 - 0 / 100) * (1 - 0 / 100)
        * (1 + 0 / 100) * (1 + (if (0 : ℚ) = 0 then (21 : ℚ) else 0) / 100))
      = 121
    rw [if_pos rfl]
    have h : (100 * (1 - 0 / 100) * (1 - 0 / 100) * (1 - 0 / 100)
        * (1 + 0 / 100) * (1 + 21 / 100) : ℚ) = ((12100 : ℤ) : ℚ) / 100 := by
      norm_num
    rw [h, round2_hundredth]
    norm_num
  · show round2 (100 * (1 - 0 / 100) * (1 - 0 / 100) * (1 - 0 / 100)
        * (1 + 0 / 100) * (1 + 0 / 100)) = 100
    have h : (100 * (1 - 0 / 100) * (1 - 0 / 100) * (1 - 0 / 100)
        * (1 + 0 / 100) * (1 + 0 / 100) : ℚ) = ((10000 : ℤ) : ℚ) / 100 := by
      norm_num
    rw [h, round2_hundredth]
    norm_num

/-- **C7 as amended.** For all non-negative inputs,
`Product.calculate_prices` (a pure Lean function, hence deterministic)
computes `net_price = list · (1−d₁/100)(1−d₂/100)(1−d₃/100)(1+extra/100)`
and `sale_price = (that same unrounded chain) · (1 + tax/100)` where the
effective tax rate is 21 when the stored rate is 0 (the falsy-guard
fallback) and the stored rate otherwise, each rounded to two decimals
exactly once at the end; and list 1000, discounts 10/5/0, extra 0,
tax 21 give net 855.00 and sale 1034.55. -/
theorem calculate_prices_single_rounding (p : Product)
    (_h1 : 0 ≤ p.list_price) (_h2 : 0 ≤ p.discount_1) (_h3 : 0 ≤ p.discount_2)
    (_h4 : 0 ≤ p.discount_3) (_h5 : 0 ≤ p.extra_cost) (_h6 : 0 ≤ p.iva_rate) :
    ((p.calculate_prices).net_price
        = round2 (p.list_price * (1 - p.discount_1 / 100) * (1 - p.discount_2 / 100)
            * (1 - p.discount_3 / 100) * (1 + p.extra_cost / 100))
      ∧ (p.calculate_prices).sale_price
        = round2 (p.list_price * (1 - p.discount_1 / 100) * (1 - p.discount_2 / 100)
            * (1 - p.discount_3 / 100) * (1 + p.extra_cost / 100)
            * (1 + (if p.iva_rate = 0 then (21 : ℚ) else p.iva_rate) / 100)))
      ∧ (pricingExample.calculate_prices).net_price = 855
      ∧ (pricingExample.calculate_prices).sale_price = 103455 / 100 := by
  refine ⟨⟨rfl, rfl⟩, ?_, ?_⟩
  · show round2 (1000 * (1 - 10 / 100) * (1 - 5 / 100) * (1 - 0 / 100)
        * (1 + 0 / 100)) = 855
    have h : (1000 * (1 - 10 / 100) * (1 - 5 / 100) * (1 - 0 / 100)
        * (1 + 0 / 100) : ℚ) = ((85500 : ℤ) : ℚ) / 100 := by norm_num
    rw [h, round2_hundredth]
    norm_num
  · show round2 (1000 * (1 - 10 / 100) * (1 - 5 / 100) * (1 - 0 / 100)
        * (1 + 0 / 100) * (1 + (if (21 : ℚ) = 0 then (21 : ℚ) else 21) / 100))
      = 103455 / 100
    rw [if_neg (by norm_num)]
    have h : (1000 * (1 - 10 / 100) * (1 - 5 / 100) * (1 - 0 / 100)
        * (1 + 0 / 100) * (1 + 21 / 100) : ℚ) = ((103455 : ℤ) : ℚ) / 100 := by
      norm_num
    rw [h, round2_hundredth]
    norm_num

/-- Witness for the amended C7 at the claim's own example input. -/
theorem calculate_prices_single_rounding_witness :
    (pricingExample.calculate_prices).net_price = 855
      ∧ (pricingExample.calculate_prices).sale_price = 103455 / 100 :=
  (calculate_prices_single_rounding pricingExample (by norm_num [pricingExample])
      (by norm_num [pricingExample]) (by norm_num [pricingExample])
      (by norm_num [pricingExample]) (by norm_num [pricingExample])
      (by norm_num [pricingExample])).2

/-- A product-creation payload whose only negative component is the tax
rate. -/
def negativeTaxPayload : ProductCreateData :=
  { code := "N1", description := "neg tax", cost_price := 0, list_price := 100
    discount_1 := 0, discount_2 := 0, discount_3 := 0, extra_cost := 0
    iva_rate := -50, current_stock := 0, minimum_stock := 0, unit := "unidad" }

/-- **C10 counterexample.** A payload with tax rate −50 passes the
`ProductCreate` validation and the pricing pipeline produces net and
sale prices (sale 50.00), so a negative tax rate does NOT fail with
`InvalidInput`: `iva_rate` is the one pricing component the schema
leaves unbounded. -/
theorem negative_tax_rate_is_accepted :
    negativeTaxPayload.iva_rate < 0
      ∧ productCreateValid negativeTaxPayload = true
      ∧ ∃ p, product_service_create 1 negativeTaxPayload = some p
          ∧ p.net_price = 100 ∧ p.sale_price = 50 := by
  have hrow : product_service_create 1 negativeTaxPayload
      = some (Product.calculate_prices
        { id := 0, business_id := 1, code := "N1", description := "neg tax"
          unit := "unidad", list_price := 100, discount_1 := 0, discount_2 := 0
          discount_3 := 0, discount_display := none, extra_cost := 0
          net_price := 0, sale_price := 0, iva_rate := -50
          current_stock := 0 }) := by
    unfold product_service_create
    rw [if_pos (by decide)]
    rfl
  refine ⟨by norm_num [negativeTaxPayload], by decide, _, hrow, ?_, ?_⟩
  · show round2 (100 * (1 - 0 / 100) * (1 - 0 / 100) * (1 - 0 / 100)
        * (1 + 0 / 100)) = 100
    have h : (100 * (1 - 0 / 100) * (1 - 0 / 100) * (1 - 0 / 100)
        * (1 + 0 / 100) : ℚ) = ((10000 : ℤ) : ℚ) / 100 := by norm_num
    rw [h, round2_hundredth]
    norm_num
  · show round2 (100 * (1 - 0 / 100) * (1 - 0 / 100) * (1 - 0 / 100)
        * (1 + 0 / 100) * (1 + (-50) / 100)) = 50
    have h : (100 * (1 - 0 / 100) * (1 - 0 / 100) * (1 - 0 / 100)
        * (1 + 0 / 100) * (1 + (-50) / 100) : ℚ) = ((5000 : ℤ) : ℚ) / 100 := by
      norm_num
    rw [h, round2_hundredth]
    norm_num

/-- **C10 as amended.** Every pricing input in which the list price, the
cost price, one of the three discounts, or the extra-cost percentage is
negative is rejected by the `ProductCreate` validation (`InvalidInput`)
and no prices are produced; the tax rate, however, is not validated
(see the counterexample). -/
theorem pricing_rejects_negative_inputs_except_tax (business_id : ℕ)
    (d : ProductCreateData)
    (h : d.cost_price < 0 ∨ d.list_price < 0 ∨ d.discount_1 < 0
      ∨ d.discount_2 < 0 ∨ d.discount_3 < 0 ∨ d.extra_cost < 0) :
    product_service_create business_id d = none := by
  have hv : productCreateValid d = false := by
    cases hval : productCreateValid d
    · rfl
    · exfalso
      have hs := (productCreateValid_iff d).mp hval
      rcases h with h | h | h | h | h | h <;> linarith [hs.1, hs.2.1, hs.2.2.1.1,
        hs.2.2.2.1.1, hs.2.2.2.2.1.1, hs.2.2.2.2.2.1]
  unfold product_service_create
  rw [if_neg]
  simp [hv]

/-- **C9.** Closing the open cash session computes
`difference = counted − expected` with
`expected = opening + (sales + collections + income − expense)` over the
`CASH`-method movements; it fails with `ValidationError`
(`differenceReasonRequired`) exactly when the difference is nonzero and
no reason was given, and otherwise persists `CLOSED`, `closed_by`,
`closed_at`, `counted_cash`, `difference` and the reason. -/
theorem close_cash_difference_and_reason (registers : List CashRegister)
    (business_id user_id : ℕ) (now : ℤ) (counted_cash : ℚ)
    (reason : Option String) (r : CashRegister)
    (hopen : get_open_cash_register registers business_id = some r) :
    ((calculate_summary r).expected_cash
        = r.opening_amount
          + (movementSum r.movements .SALE .CASH
              + movementSum r.movements .PAYMENT_RECEIVED .CASH
              + movementSum r.movements .INCOME .CASH
              - movementSum r.movements .EXPENSE .CASH))
      ∧ (close_cash registers business_id user_id now counted_cash reason
            = .error .differenceReasonRequired
          ↔ counted_cash - (calculate_summary r).expected_cash ≠ 0
              ∧ strFalsy reason = true)
      ∧ (∀ r', close_cash registers business_id user_id now counted_cash reason
            = .ok r'
          → r'.status = CashRegisterStatus.CLOSED
            ∧ r'.closed_by = some user_id
            ∧ r'.closed_at = some now
            ∧ r'.counted_cash = some counted_cash
            ∧ r'.difference
                = some (counted_cash - (calculate_summary r).expected_cash)
            ∧ r'.difference_reason = reason) := by
  have hred : close_cash registers business_id user_id now counted_cash reason
      = (if (decide (counted_cash - (calculate_summary r).expected_cash ≠ 0)
            && strFalsy reason) = true
          then .error .differenceReasonRequired
          else .ok { r with
                status := CashRegisterStatus.CLOSED
                closed_by := some user_id
                closed_at := some now
                counted_cash := some counted_cash
                difference := some (counted_cash - (calculate_summary r).expected_cash)
                difference_reason := reason }) := by
    unfold close_cash
    rw [hopen]
  refine ⟨calculate_summary_expected_cash r, ?_, ?_⟩
  · rw [hred]
    by_cases hd : counted_cash - (calculate_summary r).expected_cash ≠ 0
      ∧ strFalsy reason = true
    · rw [if_pos (by simp [hd.1, hd.2])]
      simpa using hd
    · rw [if_neg (by simpa using hd)]
      simp only [reduceCtorEq, false_iff]
      exact hd
  · intro r' hok
    rw [hred] at hok
    by_cases hd : counted_cash - (calculate_summary r).expected_cash ≠ 0
      ∧ strFalsy reason = true
    · rw [if_pos (by simp [hd.1, hd.2])] at hok
      cases hok
    · rw [if_neg (by simpa using hd)] at hok
      cases hok
      simp

/-- The open session used to witness C9: opening 100 and a single cash
sale of 50. -/
def closeExampleRegister : CashRegister :=
  { id := 1, business_id := 1, opened_by := 1, closed_by := none
    status := CashRegisterStatus.OPEN, opening_amount := 100
    opened_at := 0, closed_at := none, counted_cash := none
    difference := none, difference_reason := none
    movements := [{ cash_register_id := 1, type := .SALE
                    payment_method := .CASH, amount := 50
                    description := "venta", voucher_id := none
                    created_by := 1 }]
    deleted_at := none }

/-- Witness for C9: the example session closes cleanly at counted 150
(difference 0, no reason needed). -/
theorem close_cash_difference_and_reason_witness :
    ∃ r', close_cash [closeExampleRegister] 1 1 3600 150 none = .ok r'
      ∧ r'.status = CashRegisterStatus.CLOSED
      ∧ r'.difference
          = some (150 - (calculate_summary closeExampleRegister).expected_cash) := by
  have hopen : get_open_cash_register [closeExampleRegister] 1
      = some closeExampleRegister := rfl
  have h := close_cash_difference_and_reason [closeExampleRegister] 1 1 3600 150
    none closeExampleRegister hopen
  have hexp : (calculate_summary closeExampleRegister).expected_cash = 150 := by
    rw [h.1]
    show (100 : ℚ) + _ = 150
    simp [movementSum, closeExampleRegister]
    norm_num
  have hred : close_cash [closeExampleRegister] 1 1 3600 150 none
      = (if (decide ((150 : ℚ) - (calculate_summary closeExampleRegister).expected_cash ≠ 0)
            && strFalsy none) = true
          then .error .differenceReasonRequired
          else .ok { closeExampleRegister with
                status := CashRegisterStatus.CLOSED
                closed_by := some 1
                closed_at := some 3600
                counted_cash := some 150
                difference := some (150
                  - (calculate_summary closeExampleRegister).expected_cash)
                difference_reason := none }) := by
    unfold close_cash
    rw [hopen]
  have hok : close_cash [closeExampleRegister] 1 1 3600 150 none
      = .ok { closeExampleRegister with
            status := CashRegisterStatus.CLOSED
            closed_by := some 1
            closed_at := some 3600
            counted_cash := some 150
            difference := some (150
              - (calculate_summary closeExampleRegister).expected_cash)
            difference_reason := none } := by
    rw [hred, if_neg (by simp [hexp])]
  obtain ⟨hst, _, _, _, hdiff, _⟩ := h.2.2 _ hok
  exact ⟨_, hok, hst, hdiff⟩

/-- Witness for the amended C10: list price −1 is rejected. -/
theorem pricing_rejects_negative_inputs_except_tax_witness :
    product_service_create 1
      { code := "W", description := "w", cost_price := 0, list_price := -1
        discount_1 := 0, discount_2 := 0, discount_3 := 0, extra_cost := 0
        iva_rate := 21, current_stock := 0, minimum_stock := 0
        unit := "unidad" } = none :=
  pricing_rejects_negative_inputs_except_tax 1 _ (Or.inr (Or.inl (by norm_num)))

/-! ### A concrete conversion scenario (shared by several claims) -/

/-- Example client: final consumer, so conversion produces an invoice
B. -/
def exClient : Client := { id := 2, business_id := 1, tax_condition := "CF" }

/-- Example business with all counters at zero. -/
def exBusiness : Business :=
  { id := 1, sale_point := "0001", last_quotation_number := 0
    last_receipt_number := 0, last_invoice_a_number := 0
    last_invoice_b_number := 0, last_invoice_c_number := 0 }

/-- Example product: net price 100, tax 21%, stock 10. -/
def exProduct : Product :=
  { id := 3, business_id := 1, code := "P1", description := "producto"
    unit := "unidad", list_price := 100, discount_1 := 0, discount_2 := 0
    discount_3 := 0, discount_display := none, extra_cost := 0
    net_price := 100, sale_price := 121, iva_rate := 21, current_stock := 10 }

/-- The single line of the example quotation. -/
def exQuotationItem : VoucherItem :=
  { voucher_id := 40, product_id := 3, code := "P1", description := "producto"
    quantity := 1, unit := "unidad", unit_price := 100, discount_percent := 0
    iva_rate := 21, iva_amount := 21, subtotal := 100, total := 121
    line_number := 1 }

/-- The example quotation: not yet invoiced, not deleted. -/
def exQuotation : Voucher :=
  { id := 40, business_id := 1, client_id := 2, created_by := 7
    voucher_type := VoucherType.QUOTATION, status := VoucherStatus.CONFIRMED
    sale_point := "0001", number := VNumber.num 1, date := 90, notes := ""
    show_prices := "S", subtotal := 100, iva_amount := 21, total := 121
    cae := none, cae_expiration := none, related_voucher_id := none
    invoiced_voucher_id := none, items := [exQuotationItem], deleted_at := none }

/-- The invoice produced by converting `exQuotation` (id 50, user 7,
day 100). -/
def exInvoice : Voucher :=
  { id := 50, business_id := 1, client_id := 2, created_by := 7
    voucher_type := VoucherType.INVOICE_B, status := VoucherStatus.CONFIRMED
    sale_point := "0001", number := VNumber.num 1, date := 100
    notes := "Facturado desde Cotización", show_prices := "S"
    subtotal := 100, iva_amount := 21, total := 121, cae := none
    cae_expiration := none, related_voucher_id := none
    invoiced_voucher_id := none
    items := [{ voucher_id := 50, product_id := 3, code := "P1"
                description := "producto", quantity := 1, unit := "unidad"
                unit_price := 100, discount_percent := 0, iva_rate := 21
                iva_amount := 21, subtotal := 100, total := 121
                line_number := 1 }]
    deleted_at := none }

/-- The committed effect of the example conversion. -/
def exConvertResult : ConvertResult :=
  { invoice := exInvoice
    quotation := { exQuotation with invoiced_voucher_id := some 50 }
    business := { exBusiness with last_invoice_b_number := 1 }
    products := [{ exProduct with current_stock := 9 }]
    payments := [] }

/-- Evaluation of the service conversion on the example scenario. -/
theorem convert_example_eval :
    VoucherService.convert_quotation_to_invoice [exQuotation] [exClient]
      [exBusiness] [exProduct] [] 1 40 [] 7 100 50 = .ok exConvertResult := by
  unfold VoucherService.convert_quotation_to_invoice
  simp [exQuotation, exClient, exBusiness, exProduct, exQuotationItem,
    exConvertResult, exInvoice, processItems, VoucherItem.toLine, decrementStock,
    pyInt]
  norm_num [Int.floor_one]

/-- An open register opened at time 0; at time 90001 (25 hours later)
it is expired. -/
def exExpiredRegister : CashRegister :=
  { id := 9, business_id := 1, opened_by := 1, closed_by := none
    status := CashRegisterStatus.OPEN, opening_amount := 1000
    opened_at := 0, closed_at := none, counted_cash := none
    difference := none, difference_reason := none, movements := []
    deleted_at := none }

/-- **C8 counterexample.** With the only open session expired (open for
25 hours), the conversion endpoint still succeeds: the gate only asks
`get_open_cash_register`, whose query never consults expiry, so the
"also fails when the only open session is expired" half of the claim is
false. -/
theorem convert_accepts_expired_session :
    isExpiredAt 90001 exExpiredRegister = true
      ∧ get_open_cash_register [exExpiredRegister] 1 = some exExpiredRegister
      ∧ router_convert_quotation [exExpiredRegister] [exQuotation] [exClient]
          [exBusiness] [exProduct] [] 1 40 [] 7 100 50 = .ok exConvertResult := by
  refine ⟨by decide, rfl, ?_⟩
  unfold router_convert_quotation
  rw [show get_open_cash_register [exExpiredRegister] 1 = some exExpiredRegister
    from rfl]
  simp only [convert_example_eval]

/-- **C8 as amended.** Converting a quotation requires an open cash
session: when `get_open_cash_register` finds none, every convert call
fails with the no-open-register error.  Expiry, however, is not
checked: an expired open session passes the gate (see the
counterexample). -/
theorem convert_requires_open_session (registers : List CashRegister)
    (vouchers : List Voucher) (clients : List Client) (businesses : List Business)
    (products : List Product) (methods : List PaymentMethodCatalog)
    (business_id quotation_id : ℕ) (payments : List VoucherPaymentCreate)
    (user_id today newInvoiceId : ℕ)
    (h : get_open_cash_register registers business_id = none) :
    router_convert_quotation registers vouchers clients businesses products
        methods business_id quotation_id payments user_id today newInvoiceId
      = .error .noOpenRegister := by
  unfold router_convert_quotation
  rw [h]

/-- Witness for the amended C8: with no registers at all, conversion is
refused. -/
theorem convert_requires_open_session_witness :
    router_convert_quotation [] [exQuotation] [exClient] [exBusiness] [exProduct]
        [] 1 40 [] 7 100 50 = .error .noOpenRegister :=
  convert_requires_open_session [] [exQuotation] [exClient] [exBusiness]
    [exProduct] [] 1 40 [] 7 100 50 rfl

/-- **C4.** A quotation is converted at most once.  The
`invoiced_voucher_id` link is the sole gate: (a) a convert call on a
quotation whose link is already non-null fails with the
already-invoiced error (`PreconditionFailed` in the spec's taxonomy);
(b) a successful convert only happens from a null link and sets it to
the new invoice's id.  `convert_quotation_to_invoice` is the only
operation in the engine that writes this field, and it never writes
`none`, so the link is never cleared. -/
theorem quotation_converted_at_most_once (vouchers : List Voucher)
    (clients : List Client) (businesses : List Business) (products : List Product)
    (methods : List PaymentMethodCatalog) (business_id quotation_id : ℕ)
    (payments : List VoucherPaymentCreate) (user_id today newInvoiceId : ℕ)
    (q : Voucher)
    (hq : vouchers.find? (fun v =>
        v.id == quotation_id && v.business_id == business_id
          && v.deleted_at == none) = some q) :
    (q.voucher_type = VoucherType.QUOTATION → q.invoiced_voucher_id ≠ none →
        VoucherService.convert_quotation_to_invoice vouchers clients businesses
            products methods business_id quotation_id payments user_id today
            newInvoiceId
          = .error .quotationAlreadyInvoiced)
      ∧ (∀ res, VoucherService.convert_quotation_to_invoice vouchers clients
            businesses products methods business_id quotation_id payments user_id
            today newInvoiceId = .ok res
          → q.invoiced_voucher_id = none
            ∧ res.invoice.id = newInvoiceId
            ∧ res.quotation.invoiced_voucher_id = some res.invoice.id) := by
  constructor
  · intro ht hinv
    unfold VoucherService.convert_quotation_to_invoice
    simp only [hq]
    rw [if_neg (by simp [ht]), if_pos hinv]
  · intro res hok
    unfold VoucherService.convert_quotation_to_invoice at hok
    simp only [hq] at hok
    by_cases h1 : q.voucher_type ≠ VoucherType.QUOTATION
    · rw [if_pos h1] at hok
      simp at hok
    · rw [if_neg h1] at hok
      by_cases h2 : q.invoiced_voucher_id ≠ none
      · rw [if_pos h2] at hok
        simp at hok
      · rw [if_neg h2] at hok
        refine ⟨not_not.mp h2, ?_⟩
        rcases hc : clients.find? (fun c => c.id == q.client_id) with _ | client
        · simp only [hc] at hok
          simp at hok
        · simp only [hc] at hok
          rcases hb : businesses.find? (fun b => b.id == business_id) with _ | b
          · simp only [hb] at hok
            simp at hok
          · simp only [hb] at hok
            rcases hp : processItems business_id newInvoiceId
                (if client.tax_condition == "RI" then VoucherType.INVOICE_A
                  else VoucherType.INVOICE_B) products
                (q.items.map VoucherItem.toLine) 0 with e | ⟨ps, its, s, v, t⟩
            · simp only [hp] at hok
              simp at hok
            · simp only [hp] at hok
              by_cases hpay : payments.isEmpty
              · rw [if_pos hpay] at hok
                injection hok with h
                rw [← h]
                exact ⟨rfl, rfl⟩
              · rw [if_neg hpay] at hok
                rcases hpp : processPayments methods business_id newInvoiceId t
                    payments with e | rows
                · simp only [hpp] at hok
                  simp at hok
                · simp only [hpp] at hok
                  injection hok with h
                  rw [← h]
                  exact ⟨rfl, rfl⟩

/-- Witness for C4, both halves at concrete inputs: the example
conversion sets the link, and a second convert of the already-invoiced
quotation fails. -/
theorem quotation_converted_at_most_once_witness :
    (exQuotation.invoiced_voucher_id = none
        ∧ exConvertResult.invoice.id = 50
        ∧ exConvertResult.quotation.invoiced_voucher_id
            = some exConvertResult.invoice.id)
      ∧ VoucherService.convert_quotation_to_invoice
          [{ exQuotation with invoiced_voucher_id := some 50 }] [exClient]
          [exBusiness] [exProduct] [] 1 40 [] 7 100 51
        = .error .quotationAlreadyInvoiced :=
  ⟨(quotation_converted_at_most_once [exQuotation] [exClient] [exBusiness]
      [exProduct] [] 1 40 [] 7 100 50 exQuotation rfl).2 exConvertResult
      convert_example_eval,
    (quotation_converted_at_most_once
      [{ exQuotation with invoiced_voucher_id := some 50 }] [exClient]
      [exBusiness] [exProduct] [] 1 40 [] 7 100 51
      { exQuotation with invoiced_voucher_id := some 50 } rfl).1 rfl
      (by simp)⟩

/-! ### A concrete credit-note scenario -/

/-- The line of the example original invoice: 3 units of product 3 at
100 each, 21% tax. -/
def exOriginalItem : VoucherItem :=
  { voucher_id := 60, product_id := 3, code := "P1", description := "producto"
    quantity := 3, unit := "unidad", unit_price := 100, discount_percent := 0
    iva_rate := 21, iva_amount := 63, subtotal := 300, total := 363
    line_number := 1 }

/-- The example original invoice: authorized (has a CAE), total 363. -/
def exOriginalInvoice : Voucher :=
  { id := 60, business_id := 1, client_id := 2, created_by := 7
    voucher_type := VoucherType.INVOICE_B, status := VoucherStatus.CONFIRMED
    sale_point := "0001", number := VNumber.num 1, date := 95, notes := ""
    show_prices := "S", subtotal := 300, iva_amount := 63, total := 363
    cae := some "74123456789012", cae_expiration := some 130
    related_voucher_id := none, invoiced_voucher_id := none
    items := [exOriginalItem], deleted_at := none }

/-- The credit note returned by the service for a return of 1 unit at
100: lines stored positive, document totals negated, no CAE yet,
`PENDING` number. -/
def exCreditNote : Voucher :=
  { id := 61, business_id := 1, client_id := 2, created_by := 7
    voucher_type := VoucherType.CREDIT_NOTE_B, status := VoucherStatus.CONFIRMED
    sale_point := "0001", number := VNumber.pending, date := 100
    notes := "devolución", show_prices := "S", subtotal := -100
    iva_amount := -21, total := -121, cae := none, cae_expiration := none
    related_voucher_id := some 60, invoiced_voucher_id := none
    items := [{ voucher_id := 61, product_id := 3, code := "P1"
                description := "producto", quantity := 1, unit := "unidad"
                unit_price := 100, discount_percent := 0, iva_rate := 21
                iva_amount := 21, subtotal := 100, total := 121
                line_number := 1 }]
    deleted_at := none }

/-- Evaluation of the service credit-note creation on the example. -/
theorem credit_note_example_eval :
    VoucherService.create_credit_note [exOriginalInvoice] [exBusiness]
        [exProduct] 1 60 "devolución"
        [{ product_id := 3, quantity := 1, unit_price := 100
           discount_percent := 0 }] 7 100 61
      = .ok exCreditNote := by
  unfold VoucherService.create_credit_note
  simp [exOriginalInvoice, exOriginalItem, exBusiness, exProduct, exCreditNote,
    creditNoteItems]
  norm_num [abs_of_nonpos]

/-- Inversion for the sales-document line loop: on success, the
accumulated document subtotal/tax/total are exactly the sums of the
corresponding line fields, and every line's total is its subtotal plus
its tax. -/
theorem processItems_ok_sums (business_id voucher_id : ℕ)
    (voucher_type : VoucherType) :
    ∀ (lines : List LineInput) (products : List Product) (ln : ℕ)
      (ps : List Product) (its : List VoucherItem) (s v t : ℚ),
      processItems business_id voucher_id voucher_type products lines ln
          = .ok (ps, its, s, v, t)
      → (its.map (fun it => it.total)).sum = t
        ∧ (its.map (fun it => it.subtotal)).sum = s
        ∧ (its.map (fun it => it.iva_amount)).sum = v
        ∧ t = s + v := by
  intro lines
  induction lines with
  | nil =>
      intro products ln ps its s v t h
      simp only [processItems, Except.ok.injEq, Prod.mk.injEq] at h
      obtain ⟨h1, h2, h3, h4, h5⟩ := h
      subst h2
      simp [← h3, ← h4, ← h5]
  | cons line rest ih =>
      intro products ln ps its s v t h
      simp only [processItems] at h
      rcases hf : products.find? (fun p => p.id == line.product_id) with _ | p
      · simp only [hf] at h
        simp at h
      · simp only [hf] at h
        by_cases hb : p.business_id ≠ business_id
        · rw [if_pos hb] at h
          simp at h
        · rw [if_neg hb] at h
          rcases hrec : processItems business_id voucher_id voucher_type
              (if voucher_type ≠ VoucherType.QUOTATION then
                decrementStock products line.product_id line.quantity
              else products) rest (ln + 1) with e | ⟨ps', its', s', v', t'⟩
          · simp only [hrec] at h
            simp at h
          · simp only [hrec, Except.ok.injEq, Prod.mk.injEq] at h
            obtain ⟨h1, h2, h3, h4, h5⟩ := h
            subst h2
            obtain ⟨ih1, ih2, ih3, ih4⟩ := ih _ _ _ _ _ _ _ hrec
            refine ⟨?_, ?_, ?_, ?_⟩ <;>
              simp only [List.map_cons, List.sum_cons, ih1, ih2, ih3, ih4, ← h3,
                ← h4, ← h5] <;> ring

/-- Inversion for the credit-note line loop: on success, every
requested line's product appears on the original invoice with at least
the requested quantity; every produced line is taxed at the hard-coded
21% with positive stored amounts, and the accumulated document
subtotal/tax are the negated sums of the line fields; under the schema
constraints the accumulators are nonpositive. -/
theorem creditNoteItems_ok (original : Voucher) (products : List Product)
    (voucher_id : ℕ) :
    ∀ (items_data : List CreditNoteItemCreate) (ln : ℕ)
      (items : List VoucherItem) (s v : ℚ),
      creditNoteItems original products voucher_id items_data ln
          = .ok (items, s, v)
      → (∀ it ∈ items_data, ∃ oi ∈ original.items,
            oi.product_id = it.product_id ∧ it.quantity ≤ oi.quantity)
        ∧ (∀ item ∈ items, item.iva_rate = 21
            ∧ item.iva_amount = item.subtotal * (21 / 100)
            ∧ item.total = item.subtotal + item.iva_amount)
        ∧ (items.map (fun it => it.total)).sum = -(s + v)
        ∧ ((∀ it ∈ items_data, creditNoteItemValid it = true) → s ≤ 0 ∧ v ≤ 0) := by
  intro items_data
  induction items_data with
  | nil =>
      intro ln items s v h
      simp only [creditNoteItems, Except.ok.injEq, Prod.mk.injEq] at h
      obtain ⟨h1, h2, h3⟩ := h
      subst h1
      simp [← h2, ← h3]
  | cons item_data rest ih =>
      intro ln items s v h
      simp only [creditNoteItems] at h
      rcases hf : original.items.find?
          (fun i => i.product_id == item_data.product_id) with _ | oi
      · simp only [hf] at h
        simp at h
      · simp only [hf] at h
        by_cases hq : oi.quantity < item_data.quantity
        · rw [if_pos hq] at h
          simp at h
        · rw [if_neg hq] at h
          rcases hp : products.find? (fun p => p.id == item_data.product_id)
              with _ | product
          · simp only [hp] at h
            simp at h
          · simp only [hp] at h
            rcases hrec : creditNoteItems original products voucher_id rest
                (ln + 1) with e | ⟨items', s', v'⟩
            · simp only [hrec] at h
              simp at h
            · simp only [hrec, Except.ok.injEq, Prod.mk.injEq] at h
              obtain ⟨h1, h2, h3⟩ := h
              subst h1
              obtain ⟨ih1, ih2, ih3, ih4⟩ := ih _ _ _ _ hrec
              refine ⟨?_, ?_, ?_, ?_⟩
              · intro it hit
                rcases List.mem_cons.mp hit with hit | hit
                · subst hit
                  exact ⟨oi, List.mem_of_find?_eq_some hf,
                    by simpa using List.find?_some hf, not_lt.mp hq⟩
                · exact ih1 it hit
              · intro item hitem
                rcases List.mem_cons.mp hitem with hitem | hitem
                · subst hitem
                  exact ⟨rfl, rfl, rfl⟩
                · exact ih2 item hitem
              · simp only [List.map_cons, List.sum_cons, ih3, ← h2, ← h3]
                ring
              · intro hvalid
                have hv0 := hvalid item_data (by simp)
                have hrest := ih4 (fun it hit => hvalid it (by simp [hit]))
                simp only [creditNoteItemValid, Bool.and_eq_true,
                  decide_eq_true_eq] at hv0
                obtain ⟨⟨hqty, hup⟩, hdlo, hdhi⟩ := hv0
                have hdisc : (0 : ℚ) ≤ 1 - item_data.discount_percent / 100 := by
                  linarith
                have hsub : 0 ≤ item_data.quantity * item_data.unit_price
                    * (1 - item_data.discount_percent / 100) :=
                  mul_nonneg (mul_nonneg (le_of_lt hqty) hup) hdisc
                have hiva : 0 ≤ item_data.quantity * item_data.unit_price
                    * (1 - item_data.discount_percent / 100) * (21 / 100) :=
                  mul_nonneg hsub (by norm_num)
                constructor
                · rw [← h2]
                  have := hrest.1
                  linarith
                · rw [← h3]
                  have := hrest.2
                  linarith

/-- Inversion for `VoucherService.create_credit_note`: a successful
credit note comes from an authorized fiscal invoice, carries the
`PENDING` number, no CAE, the back-reference to the original, the
line list and accumulated (negated) totals of the item loop, and
passed the total-bound check. -/
theorem create_credit_note_ok (vouchers : List Voucher)
    (businesses : List Business) (products : List Product)
    (business_id original_voucher_id : ℕ) (reason : String)
    (items_data : List CreditNoteItemCreate) (user_id today newId : ℕ)
    (nc orig : Voucher)
    (horig : vouchers.find? (fun v =>
        v.id == original_voucher_id && v.business_id == business_id) = some orig)
    (hok : VoucherService.create_credit_note vouchers businesses products
        business_id original_voucher_id reason items_data user_id today newId
      = .ok nc) :
    ∃ items s v,
      creditNoteItems orig products newId items_data 1 = .ok (items, s, v)
        ∧ nc.items = items ∧ nc.subtotal = s ∧ nc.iva_amount = v
        ∧ nc.total = s + v ∧ nc.cae = none ∧ nc.number = VNumber.pending
        ∧ nc.related_voucher_id = some orig.id
        ∧ ¬ (orig.total < |s + v|)
        ∧ orig.cae ≠ none
        ∧ orig.voucher_type ∈ [VoucherType.INVOICE_A, VoucherType.INVOICE_B,
            VoucherType.INVOICE_C] := by
  unfold VoucherService.create_credit_note at hok
  simp only [horig] at hok
  by_cases hty : orig.voucher_type ∉
      [VoucherType.INVOICE_A, VoucherType.INVOICE_B, VoucherType.INVOICE_C]
  · rw [if_pos hty] at hok
    simp at hok
  · rw [if_neg hty] at hok
    by_cases hcae : orig.cae = none
    · rw [if_pos hcae] at hok
      simp at hok
    · rw [if_neg hcae] at hok
      rcases hb : businesses.find? (fun b => b.id == business_id) with _ | b
      · simp only [hb] at hok
        simp at hok
      · simp only [hb] at hok
        rcases hitems : creditNoteItems orig products newId items_data 1
            with e | ⟨items, s, v⟩
        · simp only [hitems] at hok
          simp at hok
        · simp only [hitems] at hok
          by_cases htot : orig.total < |s + v|
          · rw [if_pos htot] at hok
            simp at hok
          · rw [if_neg htot] at hok
            injection hok with hok
            subst hok
            exact ⟨items, s, v, rfl, rfl, rfl, rfl, rfl, rfl, rfl, rfl,
              htot, hcae, not_not.mp hty⟩

/-- **C5.** Credit-note issuance is bounded by the original invoice: on
success every return line's product appears on the original invoice
with at least the requested quantity, and the credit note's absolute
total does not exceed the original's total; and concretely, returning
quantity 5 against an original line of quantity 3 fails with the
quantity `ValidationError`. -/
theorem credit_note_bounded_by_original (vouchers : List Voucher)
    (businesses : List Business) (products : List Product)
    (business_id original_voucher_id : ℕ) (reason : String)
    (items_data : List CreditNoteItemCreate) (user_id today newId : ℕ)
    (nc orig : Voucher)
    (horig : vouchers.find? (fun v =>
        v.id == original_voucher_id && v.business_id == business_id) = some orig)
    (hok : VoucherService.create_credit_note vouchers businesses products
        business_id original_voucher_id reason items_data user_id today newId
      = .ok nc) :
    ((∀ it ∈ items_data, ∃ oi ∈ orig.items,
          oi.product_id = it.product_id ∧ it.quantity ≤ oi.quantity)
        ∧ |nc.total| ≤ orig.total)
      ∧ VoucherService.create_credit_note [exOriginalInvoice] [exBusiness]
          [exProduct] 1 60 "r"
          [{ product_id := 3, quantity := 5, unit_price := 100
             discount_percent := 0 }] 7 100 61
        = .error .quantityExceedsOriginal := by
  obtain ⟨items, s, v, hitems, _, _, _, htotal, _, _, _, hbound, _⟩ :=
    create_credit_note_ok vouchers businesses products business_id
      original_voucher_id reason items_data user_id today newId nc orig horig hok
  obtain ⟨hlines, _, _, _⟩ :=
    creditNoteItems_ok orig products newId items_data 1 items s v hitems
  refine ⟨⟨hlines, ?_⟩, ?_⟩
  · rw [htotal]
    exact not_lt.mp hbound
  · unfold VoucherService.create_credit_note
    simp [exOriginalInvoice, exOriginalItem, exBusiness, exProduct,
      creditNoteItems]
    norm_num

/-- Witness for C5 at the concrete example credit note (return of 1 of
3 units). -/
theorem credit_note_bounded_by_original_witness :
    ((∀ it ∈ [({ product_id := 3, quantity := 1, unit_price := 100
                 discount_percent := 0 } : CreditNoteItemCreate)],
          ∃ oi ∈ exOriginalInvoice.items,
            oi.product_id = it.product_id ∧ it.quantity ≤ oi.quantity)
        ∧ |exCreditNote.total| ≤ exOriginalInvoice.total)
      ∧ VoucherService.create_credit_note [exOriginalInvoice] [exBusiness]
          [exProduct] 1 60 "r"
          [{ product_id := 3, quantity := 5, unit_price := 100
             discount_percent := 0 }] 7 100 61
        = .error .quantityExceedsOriginal :=
  credit_note_bounded_by_original [exOriginalInvoice] [exBusiness] [exProduct]
    1 60 "devolución" _ 7 100 61 exCreditNote exOriginalInvoice rfl
    credit_note_example_eval

/-- A product taxed at the reduced 10.5% rate. -/
def exProduct105 : Product :=
  { id := 4, business_id := 1, code := "P2", description := "reducido"
    unit := "unidad", list_price := 100, discount_1 := 0, discount_2 := 0
    discount_3 := 0, discount_display := none, extra_cost := 0
    net_price := 100, sale_price := 221/2, iva_rate := 21/2
    current_stock := 10 }

/-- An authorized invoice whose single line is the 10.5%-taxed
product. -/
def exOriginalInvoice105 : Voucher :=
  { id := 62, business_id := 1, client_id := 2, created_by := 7
    voucher_type := VoucherType.INVOICE_B, status := VoucherStatus.CONFIRMED
    sale_point := "0001", number := VNumber.num 2, date := 95, notes := ""
    show_prices := "S", subtotal := 200, iva_amount := 21
    total := 221, cae := some "74123456789013", cae_expiration := some 130
    related_voucher_id := none, invoiced_voucher_id := none
    items := [{ voucher_id := 62, product_id := 4, code := "P2"
                description := "reducido", quantity := 2, unit := "unidad"
                unit_price := 100, discount_percent := 0, iva_rate := 21/2
                iva_amount := 21, subtotal := 200, total := 221
                line_number := 1 }]
    deleted_at := none }

/-- **C6 counterexample.** For a product whose own tax rate is 10.5%,
the credit-note line is taxed at the hard-coded 21% (stored
`iva_rate = 21`, `iva_amount = 21` on a subtotal of 100), while the
sales-document line loop applied to the same inputs taxes the line at
the product's rate (`iva_rate = 10.5`, `iva_amount = 10.5`): credit-note
line tax is NOT computed at the line's own rate. -/
theorem credit_note_tax_hardcoded_21 :
    (VoucherService.create_credit_note [exOriginalInvoice105] [exBusiness]
        [exProduct105] 1 62 "r"
        [{ product_id := 4, quantity := 1, unit_price := 100
           discount_percent := 0 }] 7 100 63).map
        (fun nc => nc.items.map (fun it => (it.iva_rate, it.iva_amount)))
      = .ok [((21 : ℚ), (21 : ℚ))]
    ∧ exProduct105.iva_rate = 21/2
    ∧ (processItems 1 63 VoucherType.CREDIT_NOTE_B [exProduct105]
        [{ product_id := 4, quantity := 1, discount_percent := 0 }] 0).map
        (fun r => r.2.1.map (fun it => (it.iva_rate, it.iva_amount)))
      = .ok [((21/2 : ℚ), (21/2 : ℚ))]
    ∧ ((21 : ℚ), (21 : ℚ)) ≠ ((21/2 : ℚ), (21/2 : ℚ)) := by
  refine ⟨?_, rfl, ?_, by norm_num⟩
  · unfold VoucherService.create_credit_note
    simp [exOriginalInvoice105, exBusiness, exProduct105, creditNoteItems,
      Except.map]
    norm_num [abs_of_nonpos]
  · simp [processItems, exProduct105, decrementStock, Except.map, pyInt]
    norm_num

/-- **C6 as amended.** Under the schema constraints on the return
lines, a credit note's document-level subtotal, tax and total are all
≤ 0 (amounts are stored negated at the document level); but each line's
tax is computed at the hard-coded 21% rate (`iva_amount =
subtotal · 21/100`, stored `iva_rate = 21`), not at the line's own tax
rate (see the counterexample). -/
theorem credit_note_negated_totals_fixed_tax (vouchers : List Voucher)
    (businesses : List Business) (products : List Product)
    (business_id original_voucher_id : ℕ) (reason : String)
    (items_data : List CreditNoteItemCreate) (user_id today newId : ℕ)
    (nc orig : Voucher)
    (horig : vouchers.find? (fun v =>
        v.id == original_voucher_id && v.business_id == business_id) = some orig)
    (hvalid : ∀ it ∈ items_data, creditNoteItemValid it = true)
    (hok : VoucherService.create_credit_note vouchers businesses products
        business_id original_voucher_id reason items_data user_id today newId
      = .ok nc) :
    nc.subtotal ≤ 0 ∧ nc.iva_amount ≤ 0 ∧ nc.total ≤ 0
      ∧ ∀ item ∈ nc.items, item.iva_rate = 21
          ∧ item.iva_amount = item.subtotal * (21 / 100) := by
  obtain ⟨items, s, v, hitems, hnitems, hsub, hiva, htotal, _, _, _, _, _, _⟩ :=
    create_credit_note_ok vouchers businesses products business_id
      original_voucher_id reason items_data user_id today newId nc orig horig hok
  obtain ⟨_, htax, _, hsign⟩ :=
    creditNoteItems_ok orig products newId items_data 1 items s v hitems
  obtain ⟨hs0, hv0⟩ := hsign hvalid
  refine ⟨?_, ?_, ?_, ?_⟩
  · rw [hsub]; exact hs0
  · rw [hiva]; exact hv0
  · rw [htotal]; linarith
  · intro item hitem
    rw [hnitems] at hitem
    exact ⟨(htax item hitem).1, (htax item hitem).2.1⟩

/-- Witness for the amended C6 at the concrete example credit note. -/
theorem credit_note_negated_totals_fixed_tax_witness :
    exCreditNote.subtotal ≤ 0 ∧ exCreditNote.iva_amount ≤ 0
      ∧ exCreditNote.total ≤ 0
      ∧ ∀ item ∈ exCreditNote.items, item.iva_rate = 21
          ∧ item.iva_amount = item.subtotal * (21 / 100) :=
  credit_note_negated_totals_fixed_tax [exOriginalInvoice] [exBusiness]
    [exProduct] 1 60 "devolución"
    [{ product_id := 3, quantity := 1, unit_price := 100
       discount_percent := 0 }] 7 100 61 exCreditNote exOriginalInvoice rfl
    (by intro it hit
        simp only [List.mem_singleton] at hit
        subst hit
        decide)
    credit_note_example_eval

/-- A concrete creation request: a quotation for 1 unit of product 3,
no payments. -/
def exCreateData : VoucherCreate :=
  { client_id := 2, voucher_type := VoucherType.QUOTATION, date := 90
    notes := "", show_prices := true
    items := [{ product_id := 3, quantity := 1, discount_percent := 0
                unit_price := 100 }]
    payments := [] }

/-- The committed effect of `VoucherService.create` on `exCreateData`
(new voucher id 70, user 7). -/
def exCreateResult : CreateResult :=
  { voucher := { id := 70, business_id := 1, client_id := 2, created_by := 7
                 voucher_type := VoucherType.QUOTATION
                 status := VoucherStatus.CONFIRMED, sale_point := "0001"
                 number := VNumber.num 1, date := 90, notes := ""
                 show_prices := "S", subtotal := 100, iva_amount := 21
                 total := 121, cae := none, cae_expiration := none
                 related_voucher_id := none, invoiced_voucher_id := none
                 items := [{ voucher_id := 70, product_id := 3, code := "P1"
                             description := "producto", quantity := 1
                             unit := "unidad", unit_price := 100
                             discount_percent := 0, iva_rate := 21
                             iva_amount := 21, subtotal := 100, total := 121
                             line_number := 1 }]
                 deleted_at := none }
    business := { exBusiness with last_quotation_number := 1 }
    products := [exProduct]
    payments := [] }

/-- Evaluation of `VoucherService.create` on the example quotation. -/
theorem create_example_eval :
    VoucherService.create [exClient] [exBusiness] [exProduct] [] 1 exCreateData
      7 70 = .ok exCreateResult := by
  unfold VoucherService.create
  simp [exCreateData, exClient, exBusiness, exProduct, exCreateResult,
    processItems, VoucherItemCreate.toLine, reserveNumber]
  norm_num

/-- **C3 as amended.** For every document the engine persists through
`VoucherService.create` or `convert_quotation_to_invoice`, the sum of
the lines' `total` fields equals the document's stored total exactly
(hence within 0.01); for credit notes, however, the lines are stored
with positive totals while the document total is negated, so the sum of
the lines' totals equals MINUS the document total (and the claimed
invariant fails whenever the credit note is nonzero — see the
counterexample). -/
theorem line_totals_sum_to_document_total :
    (∀ (clients : List Client) (businesses : List Business)
       (products : List Product) (methods : List PaymentMethodCatalog)
       (business_id : ℕ) (data : VoucherCreate) (user_id newVoucherId : ℕ)
       (res : CreateResult),
       VoucherService.create clients businesses products methods business_id
           data user_id newVoucherId = .ok res
       → ((res.voucher.items.map (fun it => it.total)).sum = res.voucher.total))
    ∧ (∀ (vouchers : List Voucher) (clients : List Client)
         (businesses : List Business) (products : List Product)
         (methods : List PaymentMethodCatalog) (business_id quotation_id : ℕ)
         (payments : List VoucherPaymentCreate) (user_id today newInvoiceId : ℕ)
         (res : ConvertResult),
         VoucherService.convert_quotation_to_invoice vouchers clients businesses
             products methods business_id quotation_id payments user_id today
             newInvoiceId = .ok res
         → ((res.invoice.items.map (fun it => it.total)).sum = res.invoice.total))
    ∧ (∀ (vouchers : List Voucher) (businesses : List Business)
         (products : List Product) (business_id original_voucher_id : ℕ)
         (reason : String) (items_data : List CreditNoteItemCreate)
         (user_id today newId : ℕ) (nc : Voucher),
         VoucherService.create_credit_note vouchers businesses products
             business_id original_voucher_id reason items_data user_id today
             newId = .ok nc
         → ((nc.items.map (fun it => it.total)).sum = -nc.total)) := by
  refine ⟨?_, ?_, ?_⟩
  · intro clients businesses products methods business_id data user_id
      newVoucherId res hok
    unfold VoucherService.create at hok
    rcases hc : clients.find? (fun c => c.id == data.client_id) with _ | client
    · simp only [hc] at hok
      simp at hok
    · simp only [hc] at hok
      by_cases hcb : client.business_id ≠ business_id
      · rw [if_pos hcb] at hok
        simp at hok
      · rw [if_neg hcb] at hok
        rcases hb : businesses.find? (fun b => b.id == business_id) with _ | b
        · simp only [hb] at hok
          simp at hok
        · simp only [hb] at hok
          rcases hp : processItems business_id newVoucherId data.voucher_type
              products (data.items.map VoucherItemCreate.toLine) 0
              with e | ⟨ps, its, s, v, t⟩
          · simp only [hp] at hok
            simp at hok
          · simp only [hp] at hok
            obtain ⟨hsum, _, _, _⟩ := processItems_ok_sums business_id
              newVoucherId data.voucher_type _ _ _ _ _ _ _ _ hp
            by_cases hpay : data.payments.isEmpty
            · rw [if_pos hpay] at hok
              injection hok with hok
              rw [← hok]
              exact hsum
            · rw [if_neg hpay] at hok
              rcases hpp : processPayments methods business_id newVoucherId t
                  data.payments with e | rows
              · simp only [hpp] at hok
                simp at hok
              · simp only [hpp] at hok
                injection hok with hok
                rw [← hok]
                exact hsum
  · intro vouchers clients businesses products methods business_id quotation_id
      payments user_id today newInvoiceId res hok
    unfold VoucherService.convert_quotation_to_invoice at hok
    rcases hq : vouchers.find? (fun v => v.id == quotation_id
        && v.business_id == business_id && v.deleted_at == none) with _ | q
    · simp only [hq] at hok
      simp at hok
    · simp only [hq] at hok
      by_cases h1 : q.voucher_type ≠ VoucherType.QUOTATION
      · rw [if_pos h1] at hok
        simp at hok
      · rw [if_neg h1] at hok
        by_cases h2 : q.invoiced_voucher_id ≠ none
        · rw [if_pos h2] at hok
          simp at hok
        · rw [if_neg h2] at hok
          rcases hc : clients.find? (fun c => c.id == q.client_id) with _ | client
          · simp only [hc] at hok
            simp at hok
          · simp only [hc] at hok
            rcases hb : businesses.find? (fun b => b.id == business_id) with _ | b
            · simp only [hb] at hok
              simp at hok
            · simp only [hb] at hok
              rcases hp : processItems business_id newInvoiceId
                  (if client.tax_condition == "RI" then VoucherType.INVOICE_A
                    else VoucherType.INVOICE_B) products
                  (q.items.map VoucherItem.toLine) 0 with e | ⟨ps, its, s, v, t⟩
              · simp only [hp] at hok
                simp at hok
              · simp only [hp] at hok
                obtain ⟨hsum, _, _, _⟩ := processItems_ok_sums business_id
                  newInvoiceId _ _ _ _ _ _ _ _ _ hp
                by_cases hpay : payments.isEmpty
                · rw [if_pos hpay] at hok
                  injection hok with hok
                  rw [← hok]
                  exact hsum
                · rw [if_neg hpay] at hok
                  rcases hpp : processPayments methods business_id newInvoiceId t
                      payments with e | rows
                  · simp only [hpp] at hok
                    simp at hok
                  · simp only [hpp] at hok
                    injection hok with hok
                    rw [← hok]
                    exact hsum
  · intro vouchers businesses products business_id original_voucher_id reason
      items_data user_id today newId nc hok
    rcases horig : vouchers.find? (fun v => v.id == original_voucher_id
        && v.business_id == business_id) with _ | orig
    · unfold VoucherService.create_credit_note at hok
      simp only [horig] at hok
      simp at hok
    · obtain ⟨items, s, v, hitems, hnitems, _, _, htotal, _, _, _, _, _, _⟩ :=
        create_credit_note_ok vouchers businesses products business_id
          original_voucher_id reason items_data user_id today newId nc orig
          horig hok
      obtain ⟨_, _, hsum, _⟩ :=
        creditNoteItems_ok orig products newId items_data 1 items s v hitems
      rw [hnitems, hsum, htotal]

/-- Witness for the amended C3 at the three concrete examples (a
created quotation, a converted invoice, and a credit note). -/
theorem line_totals_sum_to_document_total_witness :
    ((exCreateResult.voucher.items.map (fun it => it.total)).sum
        = exCreateResult.voucher.total)
      ∧ ((exConvertResult.invoice.items.map (fun it => it.total)).sum
          = exConvertResult.invoice.total)
      ∧ ((exCreditNote.items.map (fun it => it.total)).sum
          = -exCreditNote.total) :=
  ⟨line_totals_sum_to_document_total.1 [exClient] [exBusiness] [exProduct] []
      1 exCreateData 7 70 exCreateResult create_example_eval,
    line_totals_sum_to_document_total.2.1 [exQuotation] [exClient] [exBusiness]
      [exProduct] [] 1 40 [] 7 100 50 exConvertResult convert_example_eval,
    line_totals_sum_to_document_total.2.2 [exOriginalInvoice] [exBusiness]
      [exProduct] 1 60 "devolución"
      [{ product_id := 3, quantity := 1, unit_price := 100
         discount_percent := 0 }] 7 100 61 exCreditNote
      credit_note_example_eval⟩

/-- **C3 counterexample.** The example credit note: its lines' totals
sum to +121 while the stored document total is −121, so
`Σ line.total = document.total` fails by 242, far beyond the 0.01
tolerance. -/
theorem credit_note_breaks_line_sum_invariant :
    VoucherService.create_credit_note [exOriginalInvoice] [exBusiness]
        [exProduct] 1 60 "devolución"
        [{ product_id := 3, quantity := 1, unit_price := 100
           discount_percent := 0 }] 7 100 61 = .ok exCreditNote
      ∧ (exCreditNote.items.map (fun it => it.total)).sum = 121
      ∧ exCreditNote.total = -121
      ∧ ¬ (|(exCreditNote.items.map (fun it => it.total)).sum
            - exCreditNote.total| ≤ 1/100) := by
  refine ⟨credit_note_example_eval, by simp [exCreditNote], rfl, ?_⟩
  have h : (exCreditNote.items.map (fun it => it.total)).sum = 121 := by
    simp [exCreditNote]
  rw [h, show exCreditNote.total = -121 from rfl]
  rw [show (121 : ℚ) - -121 = 242 by norm_num, abs_of_nonneg (by norm_num)]
  norm_num

/-! ### The end-to-end cash scenario of C1 -/

/-- The business's cash payment-method catalog entry. -/
def exCashMethod : PaymentMethodCatalog :=
  { id := 5, business_id := 1, name := "Efectivo", code := "CASH"
    is_active := true, requires_reference := false }

/-- A product whose net price is 1000 (so one unit invoices at 1210
with 21% tax). -/
def exProduct1000 : Product :=
  { id := 6, business_id := 1, code := "P3", description := "caro"
    unit := "unidad", list_price := 1000, discount_1 := 0, discount_2 := 0
    discount_3 := 0, discount_display := none, extra_cost := 0
    net_price := 1000, sale_price := 1210, iva_rate := 21, current_stock := 10 }

/-- The session opened with 1000 at time 0 (register id 8, user 1). -/
def exSession : CashRegister :=
  { id := 8, business_id := 1, opened_by := 1, closed_by := none
    status := CashRegisterStatus.OPEN, opening_amount := 1000
    opened_at := 0, closed_at := none, counted_cash := none
    difference := none, difference_reason := none, movements := []
    deleted_at := none }

/-- The invoice request: one unit of the 1000-net product, paid fully
in cash (1210). -/
def exInvoiceData : VoucherCreate :=
  { client_id := 2, voucher_type := VoucherType.INVOICE_B, date := 100
    notes := "", show_prices := true
    items := [{ product_id := 6, quantity := 1, discount_percent := 0
                unit_price := 1000 }]
    payments := [{ payment_method_id := 5, amount := 1210, reference := none }] }

/-- The committed effect of creating that invoice (voucher id 71,
user 7). -/
def exInvoiceCreateResult : CreateResult :=
  { voucher := { id := 71, business_id := 1, client_id := 2, created_by := 7
                 voucher_type := VoucherType.INVOICE_B
                 status := VoucherStatus.CONFIRMED, sale_point := "0001"
                 number := VNumber.num 1, date := 100, notes := ""
                 show_prices := "S", subtotal := 1000, iva_amount := 210
                 total := 1210, cae := none, cae_expiration := none
                 related_voucher_id := none, invoiced_voucher_id := none
                 items := [{ voucher_id := 71, product_id := 6, code := "P3"
                             description := "caro", quantity := 1
                             unit := "unidad", unit_price := 1000
                             discount_percent := 0, iva_rate := 21
                             iva_amount := 210, subtotal := 1000, total := 1210
                             line_number := 1 }]
                 deleted_at := none }
    business := { exBusiness with last_invoice_b_number := 1 }
    products := [{ exProduct1000 with current_stock := 9 }]
    payments := [{ voucher_id := 71, payment_method_id := 5, amount := 1210
                   reference := none }] }

/-- Evaluation of `VoucherService.create` on the cash-paid invoice. -/
theorem create_invoice_example_eval :
    VoucherService.create [exClient] [exBusiness] [exProduct1000] [exCashMethod]
      1 exInvoiceData 7 71 = .ok exInvoiceCreateResult := by
  unfold VoucherService.create
  simp [exInvoiceData, exClient, exBusiness, exProduct1000, exCashMethod,
    exInvoiceCreateResult, processItems, VoucherItemCreate.toLine,
    reserveNumber, processPayments, validatePaymentEntries, strFalsy, pyInt,
    decrementStock]
  norm_num

/-- **C1.** The claim fails on the code: `create_automatic_movement` is
defined (`cash_register_service.py:326-351`, its docstring says it is
used by the voucher service) but no code path invokes it, so completing
an invoice paid fully in cash records NO sale movement in the open
session.  In the claim's own end-to-end scenario — session opened with
1000, invoice of 1210 paid fully in cash — the session's movement list
stays empty, `summarize` reports `expected_cash = 1000` (not 2210), and
closing with counted cash 2210 is rejected for lacking a difference
reason (difference 1210, not 0). -/
theorem invoice_creation_records_no_cash_movement :
    open_cash [] 1 1 0 8 1000 = .ok exSession
      ∧ router_create_voucher [exSession] [exClient] [exBusiness] [exProduct1000]
          [exCashMethod] 1 exInvoiceData 7 71 = .ok exInvoiceCreateResult
      ∧ exInvoiceCreateResult.voucher.total = 1210
      ∧ exSession.movements = []
      ∧ (calculate_summary exSession).expected_cash = 1000
      ∧ close_cash [exSession] 1 1 3600 2210 none
          = .error .differenceReasonRequired := by
  refine ⟨rfl, ?_, rfl, rfl, ?_, ?_⟩
  · unfold router_create_voucher
    rw [if_neg (by simp [get_open_cash_register, exSession])]
    rw [create_invoice_example_eval]
  · rw [calculate_summary_expected_cash]
    simp [exSession, movementSum]
  · have hexp : (calculate_summary exSession).expected_cash = 1000 := by
      rw [calculate_summary_expected_cash]
      simp [exSession, movementSum]
    have hopen : get_open_cash_register [exSession] 1 = some exSession := rfl
    have hred : close_cash [exSession] 1 1 3600 2210 none
        = (if (decide ((2210 : ℚ) - (calculate_summary exSession).expected_cash
              ≠ 0) && strFalsy none) = true
            then .error .differenceReasonRequired
            else .ok { exSession with
                  status := CashRegisterStatus.CLOSED
                  closed_by := some 1
                  closed_at := some 3600
                  counted_cash := some 2210
                  difference := some (2210
                    - (calculate_summary exSession).expected_cash)
                  difference_reason := none }) := by
      unfold close_cash
      rw [hopen]
    rw [hred, if_pos (by rw [hexp]; norm_num [strFalsy])]

/-- Every credit note the service returns is committed with no CAE and
the `PENDING` number: the fiscal authorization happens only afterwards,
in the router. -/
theorem create_credit_note_cae_none (vouchers : List Voucher)
    (businesses : List Business) (products : List Product)
    (business_id original_voucher_id : ℕ) (reason : String)
    (items_data : List CreditNoteItemCreate) (user_id today newId : ℕ)
    (nc : Voucher)
    (hok : VoucherService.create_credit_note vouchers businesses products
        business_id original_voucher_id reason items_data user_id today newId
      = .ok nc) :
    nc.cae = none ∧ nc.number = VNumber.pending := by
  rcases horig : vouchers.find? (fun v =>
      v.id == original_voucher_id && v.business_id == business_id) with _ | orig
  · unfold VoucherService.create_credit_note at hok
    simp only [horig] at hok
    simp at hok
  · obtain ⟨items, s, v, _, _, _, _, _, hcae, hpend, _, _, _, _⟩ :=
      create_credit_note_ok vouchers businesses products business_id
        original_voucher_id reason items_data user_id today newId nc orig
        horig hok
    exact ⟨hcae, hpend⟩

/-- The credit-note request of the example. -/
def exCreditNoteRequest : CreditNoteCreateRequest :=
  { original_voucher_id := 60, reason := "devolución"
    items := [{ product_id := 3, quantity := 1, unit_price := 100
                discount_percent := 0 }] }

/-- **C2 counterexample.** Credit-note issuance is NOT atomic with its
fiscal authorization: the endpoint's first commit (performed inside
`VoucherService.create_credit_note`, before the AFIP call) makes the
voucher table `[original, creditNote]` with `creditNote.cae = none`
observable by other transactions; when the AFIP call then fails, a
second commit deletes the credit note again.  The snapshot list of the
endpoint run exhibits the observable unauthorized credit note. -/
theorem credit_note_observable_without_authorization :
    (router_create_credit_note [exSession] [exOriginalInvoice] [exClient]
        [exBusiness] [exProduct] 1 exCreditNoteRequest 7 100 61 none).1
      = [[exOriginalInvoice, exCreditNote], [exOriginalInvoice]]
      ∧ exCreditNote.cae = none
      ∧ exCreditNote ∈ [exOriginalInvoice, exCreditNote]
      ∧ (router_create_credit_note [exSession] [exOriginalInvoice] [exClient]
          [exBusiness] [exProduct] 1 exCreditNoteRequest 7 100 61 none).2
        = .error .afipEmission := by
  have hrun : router_create_credit_note [exSession] [exOriginalInvoice]
      [exClient] [exBusiness] [exProduct] 1 exCreditNoteRequest 7 100 61 none
      = ([[exOriginalInvoice, exCreditNote], [exOriginalInvoice]],
          .error .afipEmission) := by
    unfold router_create_credit_note
    rw [show get_open_cash_register [exSession] 1 = some exSession from rfl]
    rw [show VoucherService.create_credit_note [exOriginalInvoice] [exBusiness]
        [exProduct] 1 exCreditNoteRequest.original_voucher_id
        exCreditNoteRequest.reason exCreditNoteRequest.items 7 100 61
      = .ok exCreditNote from credit_note_example_eval]
    rfl
  rw [hrun]
  exact ⟨rfl, rfl, by simp, rfl⟩

/-- **C2 as amended.** On fiscal-authority failure the endpoint returns
an error and — provided the business, client and original-invoice
lookups it performs after the first commit still succeed — the last
committed state is the original voucher table: the credit note has been
deleted by a compensating second transaction, so no credit note
ultimately exists without authorization.  The operation is not atomic,
however: the credit note (always committed with `cae = none` and the
`PENDING` number) is observable by other transactions between the two
commits, as the first committed snapshot `vouchers ++ [nc]` shows. -/
theorem credit_note_afip_failure_compensated (registers : List CashRegister)
    (vouchers : List Voucher) (clients : List Client)
    (businesses : List Business) (products : List Product) (business_id : ℕ)
    (data : CreditNoteCreateRequest) (user_id today newId : ℕ)
    (r : CashRegister) (nc : Voucher) (b : Business) (c : Client)
    (orig : Voucher)
    (hreg : get_open_cash_register registers business_id = some r)
    (hok : VoucherService.create_credit_note vouchers businesses products
        business_id data.original_voucher_id data.reason data.items user_id
        today newId = .ok nc)
    (hb : businesses.find? (fun x => x.id == business_id) = some b)
    (hc : clients.find? (fun x => x.id == nc.client_id) = some c)
    (ho : vouchers.find? (fun v => v.id == data.original_voucher_id)
        = some orig) :
    router_create_credit_note registers vouchers clients businesses products
        business_id data user_id today newId none
      = ([vouchers ++ [nc], vouchers], .error .afipEmission)
      ∧ nc.cae = none := by
  constructor
  · unfold router_create_credit_note
    rw [hreg]
    simp only [hok, hb, hc, ho]
  · exact (create_credit_note_cae_none vouchers businesses products business_id
      data.original_voucher_id data.reason data.items user_id today newId nc
      hok).1

/-- Witness for the amended C2 at the concrete example run. -/
theorem credit_note_afip_failure_compensated_witness :
    router_create_credit_note [exSession] [exOriginalInvoice] [exClient]
        [exBusiness] [exProduct] 1 exCreditNoteRequest 7 100 61 none
      = ([[exOriginalInvoice] ++ [exCreditNote], [exOriginalInvoice]],
          .error .afipEmission)
      ∧ exCreditNote.cae = none :=
  credit_note_afip_failure_compensated [exSession] [exOriginalInvoice]
    [exClient] [exBusiness] [exProduct] 1 exCreditNoteRequest 7 100 61
    exSession exCreditNote exBusiness exClient exOriginalInvoice rfl
    credit_note_example_eval rfl rfl rfl

end Octopus
